import Mathlib

/-!
Verification of the reactive session / recommendation engine of the
music4dementia-reactive repository.

The development shallowly embeds the JavaScript source:

* `src/models/Track.js` — the mongoose track schema method
  `calculateSimilarity` (track-to-track similarity) and the
  `ReactiveSessionManager` class (session store, joins/leaves, reactions,
  metrics, engagement);
* `src/reactive/music-engine.js` — the `MusicRecommendationEngine` class
  (content similarity, the three recommendation strategies, the combiner,
  adaptive recommendations, the preference model);
* `src/routes/sessions.js` — the JSON-schema validation guard of the
  POST reaction route.

JavaScript numbers are modelled as `ℚ` except where the source computes
`Math.exp` or `Math.sqrt`, which are modelled exactly with `Real.exp` and
`Real.sqrt`.  JavaScript `Map`s are modelled as insertion-ordered
association lists: `set` overwrites in place or appends, `delete` filters,
`get` finds the first entry.  Impure inputs (`Date.now()`, `uuidv4()`,
`Math.random()`) are threaded as explicit parameters.
-/

namespace M4D

/-- JavaScript `Map.prototype.get`: the value at the first entry with the
given key. -/
def mapGet {α : Type} (m : List (String × α)) (k : String) : Option α :=
  (m.find? (fun p => p.1 == k)).map (·.2)

/-- JavaScript `Map.prototype.set`: overwrite the entry in place when the
key is present, otherwise append a new entry. -/
def mapSet {α : Type} (m : List (String × α)) (k : String) (v : α) : List (String × α) :=
  if m.any (fun p => p.1 == k) then
    m.map (fun p => if p.1 == k then (k, v) else p)
  else m ++ [(k, v)]

/-- JavaScript `Map.prototype.delete`: drop the entries with the given key. -/
def mapDelete {α : Type} (m : List (String × α)) (k : String) : List (String × α) :=
  m.filter (fun p => !(p.1 == k))

/-- Update the first element satisfying the predicate (models a JS
`for … of` loop that mutates one element and `break`s). -/
def updateFirst {α : Type} (p : α → Bool) (f : α → α) : List α → List α
  | [] => []
  | a :: l => if p a then f a :: l else a :: updateFirst p f l

theorem mapSet_nil {α : Type} (k : String) (v : α) : mapSet [] k v = [(k, v)] := rfl

theorem mapSet_cons_hit {α : Type} {a : String × α} {k : String} (l : List (String × α))
    (v : α) (h : a.1 = k) :
    mapSet (a :: l) k v = (k, v) :: l.map (fun p => if p.1 == k then (k, v) else p) := by
  unfold mapSet
  simp [List.any_cons, h]

theorem mapSet_cons_miss {α : Type} {a : String × α} {k : String} (l : List (String × α))
    (v : α) (h : ¬a.1 = k) :
    mapSet (a :: l) k v = a :: mapSet l k v := by
  unfold mapSet
  by_cases hl : l.any (fun p => p.1 == k) <;>
    simp [List.any_cons, h, hl]

theorem mapGet_mapSet_self {α : Type} (m : List (String × α)) (k : String) (v : α) :
    mapGet (mapSet m k v) k = some v := by
  induction m with
  | nil =>
    rw [mapSet_nil]
    unfold mapGet
    rw [List.find?_cons_of_pos _ (by simp)]
    rfl
  | cons a l ih =>
    by_cases ha : a.1 = k
    · rw [mapSet_cons_hit l v ha]
      unfold mapGet
      rw [List.find?_cons_of_pos _ (by simp)]
      rfl
    · rw [mapSet_cons_miss l v ha]
      unfold mapGet at ih ⊢
      rw [List.find?_cons_of_neg _ (by simp [ha])]
      exact ih

theorem find?_setMap_ne {α : Type} (l : List (String × α)) (k k' : String) (v : α)
    (hne : k' ≠ k) :
    (l.map (fun p => if p.1 == k then (k, v) else p)).find? (fun p => p.1 == k') =
      l.find? (fun p => p.1 == k') := by
  induction l with
  | nil => rfl
  | cons a l ih =>
    by_cases ha : a.1 = k
    · rw [List.map_cons]
      have hae : (if (a.1 == k) = true then (k, v) else a) = (k, v) := by simp [ha]
      rw [hae,
        List.find?_cons_of_neg _ (by simp; exact fun hc => hne hc.symm),
        List.find?_cons_of_neg _ (by simp [ha]; exact fun hc => hne hc.symm), ih]
    · rw [List.map_cons]
      have hae : (if (a.1 == k) = true then (k, v) else a) = a := by simp [ha]
      rw [hae]
      by_cases hk' : a.1 = k'
      · rw [List.find?_cons_of_pos _ (by simp [hk']),
          List.find?_cons_of_pos _ (by simp [hk'])]
      · rw [List.find?_cons_of_neg _ (by simp [hk']),
          List.find?_cons_of_neg _ (by simp [hk']), ih]

theorem mapGet_mapSet_ne {α : Type} (m : List (String × α)) (k k' : String) (v : α)
    (hne : k' ≠ k) : mapGet (mapSet m k v) k' = mapGet m k' := by
  induction m with
  | nil =>
    rw [mapSet_nil]
    unfold mapGet
    rw [List.find?_cons_of_neg _ (by simp; exact fun hc => hne hc.symm)]
  | cons a l ih =>
    by_cases ha : a.1 = k
    · rw [mapSet_cons_hit l v ha]
      unfold mapGet
      rw [List.find?_cons_of_neg _ (by simp; exact fun hc => hne hc.symm),
        List.find?_cons_of_neg _ (by simp [ha]; exact fun hc => hne hc.symm),
        find?_setMap_ne l k k' v hne]
    · rw [mapSet_cons_miss l v ha]
      by_cases hk' : a.1 = k'
      · unfold mapGet
        rw [List.find?_cons_of_pos _ (by simp [hk']),
          List.find?_cons_of_pos _ (by simp [hk'])]
      · unfold mapGet at ih ⊢
        rw [List.find?_cons_of_neg _ (by simp [hk']),
          List.find?_cons_of_neg _ (by simp [hk'])]
        exact ih

theorem updateFirst_of_not_any {α : Type} (p : α → Bool) (f : α → α) (l : List α)
    (h : ∀ a ∈ l, ¬p a = true) : updateFirst p f l = l := by
  induction l with
  | nil => rfl
  | cons a l ih =>
    have ha : p a = false := Bool.eq_false_iff.mpr (h a (by simp))
    simp [updateFirst, ha, ih (fun b hb => h b (by simp [hb]))]

/-! ## Data model shared by the engine and the session manager -/

/-- A reaction event (`reactionData` in the source): track id, sentiment
label, optional intensity, profile id, timestamp. -/
structure ReactionRec where
  trackId : String
  reaction : String
  intensity : Option ℚ
  profileId : String
  timestamp : ℚ
deriving DecidableEq

/-- JS `r.intensity >= b`: `false` when intensity is `undefined`. -/
def intensityGE (r : ReactionRec) (b : ℚ) : Bool :=
  match r.intensity with
  | some v => decide (b ≤ v)
  | none => false

/-- JS `r.intensity <= b`: `false` when intensity is `undefined`. -/
def intensityLE (r : ReactionRec) (b : ℚ) : Bool :=
  match r.intensity with
  | some v => decide (v ≤ b)
  | none => false

/-- The positive-reaction test used by `updateSessionMetrics`,
`calculateSessionMetrics` and `getAdaptiveRecommendations`:
`reaction === 'like' || reaction === 'strongly like' || intensity >= 4`. -/
def isPositiveReaction (r : ReactionRec) : Bool :=
  r.reaction == "like" || r.reaction == "strongly like" || intensityGE r 4

/-- The negative-reaction test:
`reaction === 'dislike' || reaction === 'strongly dislike' || intensity <= 2`. -/
def isNegativeReaction (r : ReactionRec) : Bool :=
  r.reaction == "dislike" || r.reaction == "strongly dislike" || intensityLE r 2

/-! ## MusicRecommendationEngine (src/reactive/music-engine.js) -/

/-- Per-track content features as stored in `trackFeatures$`. -/
structure Features where
  genre : String
  era : ℚ
  energy : ℚ
  valence : ℚ
  tempo : ℚ
deriving DecidableEq

/-- One entry of a single strategy recommendation list:
`{ trackId, score, reason }`. -/
structure RecEntry where
  trackId : String
  score : ℚ
  reason : String
deriving DecidableEq

/-- `calculateContentSimilarity` applied to two track feature records. -/
def calculateContentSimilarity (features1 features2 : Features) : ℚ :=
  let genres : ℚ := if features1.genre = features2.genre then 1 else 0
  let eras : ℚ := 1 - |features1.era - features2.era| / 50
  let energy : ℚ := 1 - |features1.energy - features2.energy|
  let valence : ℚ := 1 - |features1.valence - features2.valence|
  let tempo : ℚ := 1 - |features1.tempo - features2.tempo| / 100
  genres * 0.3 + eras * 0.2 + energy * 0.2 + valence * 0.2 + tempo * 0.1

/-- The preference vector built by `calculatePreferenceVector`: its `genre`
field is a JS `Map` from genre to accumulated score. -/
structure PreferenceVector where
  genre : List (String × ℚ)
  era : ℚ
  energy : ℚ
  valence : ℚ
  tempo : ℚ
deriving DecidableEq

/-- `calculateContentSimilarity` applied to a preference vector and a track
feature record (the source passes both through the same function; the
`features1.genre === features2.genre` test there compares a `Map` with a
string, which is never true in JS, so the genre term is always `0`). -/
def calculateContentSimilarityVec (vector : PreferenceVector) (features2 : Features) : ℚ :=
  let eras : ℚ := 1 - |vector.era - features2.era| / 50
  let energy : ℚ := 1 - |vector.energy - features2.energy|
  let valence : ℚ := 1 - |vector.valence - features2.valence|
  let tempo : ℚ := 1 - |vector.tempo - features2.tempo| / 100
  0 * 0.3 + eras * 0.2 + energy * 0.2 + valence * 0.2 + tempo * 0.1

/-- Insert into a list sorted by descending score, after entries of equal
score (so the overall sort below is stable, as the JS engine's
`sort((a, b) => b.score - a.score)` is). -/
def insertDescBy {α : Type} (score : α → ℚ) (a : α) : List α → List α
  | [] => [a]
  | b :: l => if score b ≤ score a then a :: b :: l else b :: insertDescBy score a l

/-- Stable sort by descending score, modelling JS `Array.prototype.sort`
with comparator `(a, b) => b.score - a.score` (stable per the ES2019
specification). -/
def sortDescBy {α : Type} (score : α → ℚ) : List α → List α
  | [] => []
  | a :: l => insertDescBy score a (sortDescBy score l)

/-- A `similarUser` entry of the collaborative model placeholder. -/
structure SimilarUser where
  userId : String
  similarity : ℚ
deriving DecidableEq

/-- Session context record; absent JS properties are `none`. -/
structure SessionContext where
  timeOfDay : Option String := none
  sessionDuration : Option ℚ := none
  averageReaction : Option ℚ := none
  lastTracks : Option (List String) := none
  preferredGenres : Option (List String) := none
  energyLevel : Option ℚ := none
deriving DecidableEq

/-- The engine's reactive state (`userPreferences$`, `trackFeatures$`,
`sessionContext$`, `collaborativeModel$`). -/
structure EngineState where
  userPreferences : List (String × List (String × ℚ))
  trackFeatures : List (String × Features)
  sessionContext : List (String × SessionContext)
  collaborativeModel : List (String × List SimilarUser)
deriving DecidableEq

/-- `getCollaborativeRecommendations(profileId, count)`. -/
def getCollaborativeRecommendations (st : EngineState) (profileId : Option String)
    (count : ℕ) : List RecEntry :=
  let similarUsers := (profileId.bind (fun p => mapGet st.collaborativeModel p)).getD []
  let recommendations := (similarUsers.take 5).foldl (fun acc su =>
    ((mapGet st.userPreferences su.userId).getD []).foldl (fun acc2 pr =>
      if 4 ≤ pr.2 then
        acc2 ++ [{ trackId := pr.1, score := pr.2 * su.similarity, reason := "collaborative" }]
      else acc2) acc) []
  (sortDescBy (fun r => r.score) recommendations).take count

/-- `calculatePreferenceVector(preferences)`. -/
def calculatePreferenceVector (st : EngineState)
    (preferences : List (String × ℚ)) : PreferenceVector :=
  let start : PreferenceVector × ℚ :=
    ({ genre := [], era := 0, energy := 0, valence := 0, tempo := 0 }, 0)
  let step := preferences.foldl (fun acc pr =>
    match mapGet st.trackFeatures pr.1 with
    | some features =>
      if 3 ≤ pr.2 then
        ({ genre :=
             mapSet acc.1.genre features.genre
               (((mapGet acc.1.genre features.genre).getD 0) + pr.2)
           era := acc.1.era + features.era * pr.2
           energy := acc.1.energy + features.energy * pr.2
           valence := acc.1.valence + features.valence * pr.2
           tempo := acc.1.tempo + features.tempo * pr.2 }, acc.2 + pr.2)
      else acc
    | none => acc) start
  if 0 < step.2 then
    { step.1 with
      era := step.1.era / step.2
      energy := step.1.energy / step.2
      valence := step.1.valence / step.2
      tempo := step.1.tempo / step.2 }
  else step.1

/-- `calculateContextBoost(features, context)`; the `context.energyLevel &&`
guard makes an energy level of `0` (falsy) skip the boost. -/
def calculateContextBoost (features : Features) (context : SessionContext) : ℚ :=
  let boost : ℚ := 1.0
  let boost1 := match context.preferredGenres with
    | some gs => if gs.contains features.genre then boost + 0.3 else boost
    | none => boost
  let boost2 := match context.energyLevel with
    | some e => if e ≠ 0 ∧ |e - features.energy| < 0.2 then boost1 + 0.2 else boost1
    | none => boost1
  min boost2 2.0

/-- `getContentBasedRecommendations(context, preferences, count)`. -/
def getContentBasedRecommendations (st : EngineState) (context : SessionContext)
    (preferences : List (String × ℚ)) (count : ℕ) : List RecEntry :=
  let preferenceVector := calculatePreferenceVector st preferences
  let recommendations := st.trackFeatures.map (fun p =>
    ({ trackId := p.1
       score :=
         calculateContentSimilarityVec preferenceVector p.2 *
           calculateContextBoost p.2 context
       reason := "content" } : RecEntry))
  (sortDescBy (fun r => r.score) recommendations).take count

/-- `getContextualRecommendations(sessionId, count)`; undefined context
properties make every JS comparison against them false. -/
def getContextualRecommendations (st : EngineState) (sessionId : String)
    (count : ℕ) : List RecEntry :=
  let context := (mapGet st.sessionContext sessionId).getD {}
  let recommendations := st.trackFeatures.foldl (fun acc p =>
    let skip := match context.lastTracks with
      | some lt => lt.contains p.1
      | none => false
    if skip then acc else
      let score0 : ℚ := 0.5
      let score1 := if context.timeOfDay = some "morning" ∧ 0.5 < p.2.energy
        then score0 + 0.2 else score0
      let score2 := if context.timeOfDay = some "evening" ∧ p.2.energy < 0.5
        then score1 + 0.2 else score1
      let score3 := match context.sessionDuration with
        | some d => if 30 * 60 * 1000 < d then score2 + p.2.valence * 0.3 else score2
        | none => score2
      let score4 := match context.averageReaction with
        | some a => if 3.5 < a ∧ 0.6 < p.2.valence then score3 + 0.3 else score3
        | none => score3
      let score5 := match context.averageReaction with
        | some a => if a < 2.5 ∧ p.2.valence < 0.4 then score4 - 0.2 else score4
        | none => score4
      acc ++ [{ trackId := p.1, score := score5, reason := "contextual" }]) []
  (sortDescBy (fun r => r.score) recommendations).take count

/-- `getSimilarTracks(targetFeatures, count)`: scores every catalog track
(including the target itself) by content similarity, sorts descending and
returns `slice(1, count + 1)` — it drops the top-ranked entry positionally. -/
def getSimilarTracks (st : EngineState) (targetFeatures : Features)
    (count : ℕ) : List RecEntry :=
  let similarities := st.trackFeatures.map (fun p =>
    ({ trackId := p.1
       score := calculateContentSimilarity targetFeatures p.2
       reason := "similar" } : RecEntry))
  ((sortDescBy (fun r => r.score) similarities).drop 1).take count

/-- `getContrastingTracks(targetFeatures, count)`. -/
def getContrastingTracks (st : EngineState) (targetFeatures : Features)
    (count : ℕ) : List RecEntry :=
  let contrasts := st.trackFeatures.map (fun p =>
    ({ trackId := p.1
       score := 1 - calculateContentSimilarity targetFeatures p.2
       reason := "contrasting" } : RecEntry))
  (sortDescBy (fun r => r.score) contrasts).take count

/-- A merged recommendation as built by `combineRecommendations`:
`{ trackId, score, reasons }`. -/
structure Combined where
  trackId : String
  score : ℚ
  reasons : List String
deriving DecidableEq

/-- One step of the combiner's inner loop: merge one strategy entry
(weighted by `w`) into the accumulated JS `Map` of combined entries. -/
def addRec (w : ℚ) (acc : List Combined) (r : RecEntry) : List Combined :=
  if acc.any (fun c => c.trackId == r.trackId) then
    acc.map (fun c => if c.trackId == r.trackId then
      { c with score := c.score + r.score * w, reasons := c.reasons ++ [r.reason] } else c)
  else acc ++ [{ trackId := r.trackId, score := r.score * w, reasons := [r.reason] }]

/-- `combineRecommendations(sources)`: weighted merge of the strategy lists
followed by a stable descending sort on the final scores. -/
def combineRecommendations (sources : List (List RecEntry × ℚ)) : List Combined :=
  sortDescBy (fun c => c.score)
    (sources.foldl (fun acc s => s.1.foldl (addRec s.2) acc) [])

/-- The merge step of `getSessionRecommendations`: the three strategy lists
are combined with weights 0.4 / 0.4 / 0.2 and the result truncated to 10
(`combinedRecs.slice(0, 10)`). -/
def combineSessionStrategies (collaborativeRecs contentRecs contextRecs : List RecEntry) :
    List Combined :=
  (combineRecommendations
    [(collaborativeRecs, 0.4), (contentRecs, 0.4), (contextRecs, 0.2)]).take 10

/-- `getSessionRecommendations(sessionId, profileId)`.  In the source
`profileId ? prefs.get(profileId) : new Map()` yields `undefined` when the
profile has no preference entry and the subsequent iteration would throw;
the reachable caller (`processReaction`) writes the profile's preferences
first, so the entry exists and `getD []` is only taken on fresh profiles. -/
def getSessionRecommendations (st : EngineState) (sessionId : String)
    (profileId : Option String) : List Combined :=
  let context := (mapGet st.sessionContext sessionId).getD {}
  let preferences := match profileId with
    | some p => (mapGet st.userPreferences p).getD []
    | none => []
  combineSessionStrategies
    (getCollaborativeRecommendations st profileId 5)
    (getContentBasedRecommendations st context preferences 5)
    (getContextualRecommendations st sessionId 5)

/-- Result of `getAdaptiveRecommendations`: either the combined fallback or
one of the plain single-reason lists. -/
inductive AdaptiveResult
  | combined (recs : List Combined)
  | plain (recs : List RecEntry)
deriving DecidableEq

/-- `getAdaptiveRecommendations(sessionId, profileId, lastReaction)`.
The neutral branch calls `getDiverseRecommendations`, which draws
`Math.random()`; its output is threaded as the explicit `diverse`
parameter, keeping the branch structure of the source intact. -/
def getAdaptiveRecommendations (st : EngineState) (sessionId : String)
    (profileId : Option String) (lastReaction : ReactionRec)
    (diverse : List RecEntry) : AdaptiveResult :=
  match mapGet st.trackFeatures lastReaction.trackId with
  | none => .combined (getSessionRecommendations st sessionId profileId)
  | some trackFeatures =>
    if isPositiveReaction lastReaction then
      .plain (getSimilarTracks st trackFeatures 5)
    else if isNegativeReaction lastReaction then
      .plain (getContrastingTracks st trackFeatures 5)
    else
      .plain diverse

/-- The fixed sentiment-to-score mapping of `reactionToScore`. -/
def baseScores : List (String × ℚ) :=
  [("strongly like", 5), ("like", 4), ("neutral", 3), ("dislike", 2), ("strongly dislike", 1)]

/-- `reactionToScore(reaction, intensity)`:
`intensity || baseScores[reaction] || 3`.  A JS intensity of `0` is falsy
and falls through to the sentiment mapping. -/
def reactionToScore (reaction : String) (intensity : Option ℚ) : ℚ :=
  match intensity with
  | some v => if v = 0 then (mapGet baseScores reaction).getD 3 else v
  | none => (mapGet baseScores reaction).getD 3

/-- `updateUserPreferencesWithScore(profileId, trackId, score)`. -/
def updateUserPreferencesWithScore (preferences : List (String × List (String × ℚ)))
    (profileId trackId : String) (score : ℚ) : List (String × List (String × ℚ)) :=
  let userPrefs := (mapGet preferences profileId).getD []
  mapSet preferences profileId (mapSet userPrefs trackId score)

/-- The preference-model effect of `processReaction(reactionData)`:
`updateUserPreferencesWithScore(profileId, trackId, reactionToScore(reaction, intensity))`. -/
def processReactionPrefs (preferences : List (String × List (String × ℚ)))
    (rd : ReactionRec) : List (String × List (String × ℚ)) :=
  updateUserPreferencesWithScore preferences rd.profileId rd.trackId
    (reactionToScore rd.reaction rd.intensity)

/-! ## Track schema methods (src/models/Track.js) -/

/-- A track document; only the fields read by `calculateSimilarity`.
`genre`, `artist` and `era` are not required by the schema, hence
optional; the five feature fields have schema defaults and are always
present.  (`instrumentalness` exists in the schema but is never read by
`calculateSimilarity`.) -/
structure TrackDoc where
  genre : Option String
  artist : Option String
  era : Option ℚ
  energy : ℚ
  valence : ℚ
  tempo : ℚ
  acousticness : ℚ
  danceability : ℚ
deriving DecidableEq

/-- JS `Math.abs(this.era - otherTrack.era) <= 10`: when either era is
`undefined` the subtraction is `NaN` and the comparison is false. -/
def eraWithin10 (e1 e2 : Option ℚ) : Bool :=
  match e1, e2 with
  | some a, some b => decide (|a - b| ≤ 10)
  | _, _ => false

/-- `trackSchema.methods.calculateSimilarity(otherTrack)`: Euclidean
distance over (energy, valence, tempo/100, acousticness, danceability)
turned into `1/(1+distance)`, boosted for matching genre (+0.2), matching
artist (+0.3) and era within ±10 years (+0.1), capped at 1.  A JS `===`
between two `undefined` genres (or artists) is true, matching `Option`
equality. -/
noncomputable def calculateSimilarity (t1 t2 : TrackDoc) : ℝ :=
  let energyDiff : ℝ := ((t1.energy - t2.energy : ℚ) : ℝ) ^ 2
  let valenceDiff : ℝ := ((t1.valence - t2.valence : ℚ) : ℝ) ^ 2
  let tempoDiff : ℝ := (((t1.tempo - t2.tempo) / 100 : ℚ) : ℝ) ^ 2
  let acousticDiff : ℝ := ((t1.acousticness - t2.acousticness : ℚ) : ℝ) ^ 2
  let danceDiff : ℝ := ((t1.danceability - t2.danceability : ℚ) : ℝ) ^ 2
  let distance := Real.sqrt (energyDiff + valenceDiff + tempoDiff + acousticDiff + danceDiff)
  let similarity := 1 / (1 + distance)
  let boost : ℝ := 1 + (if t1.genre = t2.genre then 0.2 else 0) +
    (if t1.artist = t2.artist then 0.3 else 0) +
    (if eraWithin10 t1.era t2.era then 0.1 else 0)
  min (similarity * boost) 1

/-! ## ReactiveSessionManager (src/models/Track.js) -/

/-- A session participant as built by `joinSession`. -/
structure Participant where
  userId : String
  profileId : String
  connectionId : String
  joinedAt : ℚ
  reactions : List ReactionRec
  currentEngagement : ℝ
  totalListeningTime : ℚ

/-- The stored `session.metrics` record. -/
structure SessionMetrics where
  totalDuration : ℚ
  tracksPlayed : ℚ
  positiveReactions : ℚ
  negativeReactions : ℚ
  averageEngagement : ℝ

/-- The stored `session.settings` record. -/
structure SessionSettings where
  autoNext : Bool
  reactionThreshold : ℚ
  maxParticipants : ℚ
deriving DecidableEq

/-- The current track reference set by `updateCurrentTrack`. -/
structure TrackInfo where
  title : String
  startedAt : ℚ
deriving DecidableEq

/-- A session record as created by `createSession`. -/
structure Session where
  id : String
  createdAt : ℚ
  participants : List (String × Participant)
  currentTrack : Option TrackInfo
  playlist : List String
  reactions : List ReactionRec
  metrics : SessionMetrics
  settings : SessionSettings

/-- The result of `calculateSessionMetrics` (the source names its ratio
field `positivityRatio`; here `positivityQuot`). -/
structure ComputedMetrics where
  sessionId : String
  duration : ℚ
  participantCount : ℕ
  tracksPlayed : ℚ
  totalReactions : ℕ
  positiveReactions : ℕ
  negativeReactions : ℕ
  positivityQuot : ℚ
  averageEngagement : ℝ
  currentTrack : Option TrackInfo
  isActive : Bool
  lastActivity : ℚ

/-- An event emitted on `sessionEvents$`. -/
structure SessionEvent where
  type : String
  sessionId : String
  timestamp : ℚ
  userId : Option String := none
  profileId : Option String := none
  track : Option TrackInfo := none
  finalMetrics : Option ComputedMetrics := none

/-- An event emitted on `userReactions$` by `updateUserReaction`. -/
structure ReactionEvent where
  sessionId : String
  rd : ReactionRec
deriving DecidableEq

/-- The manager's state: the session table, the user-to-session index and
the two outgoing event streams (modelled as appended lists). -/
structure ManagerState where
  activeSessions : List (String × Session)
  userSessions : List (String × String)
  sessionEvents : List SessionEvent
  reactionEvents : List ReactionEvent

/-- The state right after `new ReactiveSessionManager()`. -/
def initialManagerState : ManagerState :=
  { activeSessions := []
    userSessions := []
    sessionEvents := []
    reactionEvents := [] }

/-- Caller-supplied settings, spread over the defaults
(`{autoNext: true, reactionThreshold: 3, maxParticipants: 10, ...options.settings}`). -/
structure SettingsOverride where
  autoNext : Option Bool := none
  reactionThreshold : Option ℚ := none
  maxParticipants : Option ℚ := none
deriving DecidableEq

/-- The `options` argument of `createSession`. -/
structure CreateOptions where
  sessionId : Option String := none
  settings : SettingsOverride := {}
deriving DecidableEq

/-- `createSession(options)`.  `freshId` stands for the `uuidv4()` draw and
`now` for `Date.now()`; `options.sessionId || uuidv4()` treats an empty
(falsy) supplied id like an absent one. -/
def createSession (st : ManagerState) (options : CreateOptions) (freshId : String)
    (now : ℚ) : Session × ManagerState :=
  let sessionId := match options.sessionId with
    | some s => if s = "" then freshId else s
    | none => freshId
  let session : Session :=
    { id := sessionId
      createdAt := now
      participants := []
      currentTrack := none
      playlist := []
      reactions := []
      metrics :=
        { totalDuration := 0
          tracksPlayed := 0
          positiveReactions := 0
          negativeReactions := 0
          averageEngagement := 0 }
      settings :=
        { autoNext := options.settings.autoNext.getD true
          reactionThreshold := options.settings.reactionThreshold.getD 3
          maxParticipants := options.settings.maxParticipants.getD 10 } }
  (session,
    { st with
      activeSessions := mapSet st.activeSessions sessionId session
      sessionEvents := st.sessionEvents ++
        [{ type := "SESSION_CREATED", sessionId := sessionId, timestamp := now }] })

/-- The `userInfo` argument of `joinSession`. -/
structure UserInfo where
  userId : String
  profileId : String
  connectionId : String
deriving DecidableEq

/-- `joinSession(sessionId, userInfo)`: throws
`Session ${sessionId} not found` before any mutation when the session is
absent; otherwise adds/overwrites the participant keyed by `userId`,
updates the user-to-session index, emits `USER_JOINED` and returns the
session. -/
def joinSession (st : ManagerState) (sessionId : String) (userInfo : UserInfo)
    (now : ℚ) : Except String Session × ManagerState :=
  match mapGet st.activeSessions sessionId with
  | none => (Except.error ("Session " ++ sessionId ++ " not found"), st)
  | some session =>
    let participant : Participant :=
      { userId := userInfo.userId
        profileId := userInfo.profileId
        connectionId := userInfo.connectionId
        joinedAt := now
        reactions := []
        currentEngagement := 0
        totalListeningTime := 0 }
    let session2 :=
      { session with
        participants := mapSet session.participants userInfo.userId participant }
    (Except.ok session2,
      { st with
        activeSessions := mapSet st.activeSessions sessionId session2
        userSessions := mapSet st.userSessions userInfo.userId sessionId
        sessionEvents := st.sessionEvents ++
          [{ type := "USER_JOINED"
             sessionId := sessionId
             timestamp := now
             userId := some userInfo.userId
             profileId := some userInfo.profileId }] })

/-- `calculateEngagement(reactions)`: each reaction's intensity
(`reaction.intensity || 3`, so a JS intensity of `0` also defaults to 3)
weighted by `exp(-age / (5*60*1000))`, summed and divided by the number of
reactions; `0` for an empty history.  `now` stands for `Date.now()`. -/
noncomputable def calculateEngagement (reactions : List ReactionRec) (now : ℚ) : ℝ :=
  if reactions.length = 0 then 0
  else
    let weightedScores := reactions.map (fun r =>
      let ageWeight := Real.exp (-(((now : ℝ) - (r.timestamp : ℝ)) / (5 * 60 * 1000)))
      let intensityScore : ℝ := match r.intensity with
        | some v => if v = 0 then 3 else (v : ℝ)
        | none => 3
      intensityScore * ageWeight)
    weightedScores.sum / (reactions.length : ℝ)

/-- `calculateSessionMetrics(session)` (`p.currentEngagement || 0` is the
identity on real engagement values since `0 || 0` is `0`). -/
noncomputable def calculateSessionMetrics (session : Session) (now : ℚ) : ComputedMetrics :=
  let reactions := session.reactions
  let positiveReactions := (reactions.filter isPositiveReaction).length
  let negativeReactions := (reactions.filter isNegativeReaction).length
  let participantEngagements := session.participants.map (fun p => p.2.currentEngagement)
  let averageEngagement : ℝ :=
    if 0 < participantEngagements.length then
      participantEngagements.sum / (participantEngagements.length : ℝ)
    else 0
  { sessionId := session.id
    duration := now - session.createdAt
    participantCount := session.participants.length
    tracksPlayed := session.metrics.tracksPlayed
    totalReactions := reactions.length
    positiveReactions := positiveReactions
    negativeReactions := negativeReactions
    positivityQuot :=
      if 0 < reactions.length then (positiveReactions : ℚ) / (reactions.length : ℚ) else 0
    averageEngagement := averageEngagement
    currentTrack := session.currentTrack
    isActive := true
    lastActivity :=
      match (reactions.map (fun r => r.timestamp)).max? with
      | some m => m
      | none => session.createdAt }

/-- `updateSessionMetrics(session, reactionData)`: bump the
positive/negative counter according to the reaction and recompute the
average engagement from the current participants. -/
noncomputable def updateSessionMetrics (session : Session) (rd : ReactionRec) : Session :=
  let m := session.metrics
  let m1 :=
    if isPositiveReaction rd then { m with positiveReactions := m.positiveReactions + 1 }
    else if isNegativeReaction rd then { m with negativeReactions := m.negativeReactions + 1 }
    else m
  let participantEngagements := session.participants.map (fun p => p.2.currentEngagement)
  let avg : ℝ :=
    if 0 < participantEngagements.length then
      participantEngagements.sum / (participantEngagements.length : ℝ)
    else 0
  { session with metrics := { m1 with averageEngagement := avg } }

/-- `updateUserReaction(sessionId, reactionData)`: silently ignores an
unknown session; appends the reaction to the session list, updates the
first participant whose profile id matches (appending to their personal
list and recomputing their engagement), updates the session metrics and
emits the reaction on `userReactions$`. -/
noncomputable def updateUserReaction (st : ManagerState) (sessionId : String)
    (rd : ReactionRec) (now : ℚ) : ManagerState :=
  match mapGet st.activeSessions sessionId with
  | none => st
  | some session =>
    let session1 := { session with reactions := session.reactions ++ [rd] }
    let session2 :=
      { session1 with
        participants := updateFirst (fun p => p.2.profileId == rd.profileId)
          (fun p => (p.1,
            { p.2 with
              reactions := p.2.reactions ++ [rd]
              currentEngagement := calculateEngagement (p.2.reactions ++ [rd]) now }))
          session1.participants }
    let session3 := updateSessionMetrics session2 rd
    { st with
      activeSessions := mapSet st.activeSessions sessionId session3
      reactionEvents := st.reactionEvents ++ [{ sessionId := sessionId, rd := rd }] }

/-- `updateCurrentTrack(sessionId, trackInfo)`. -/
def updateCurrentTrack (st : ManagerState) (sessionId : String) (title : String)
    (now : ℚ) : ManagerState :=
  match mapGet st.activeSessions sessionId with
  | none => st
  | some session =>
    let track : TrackInfo := { title := title, startedAt := now }
    let session2 :=
      { session with
        currentTrack := some track
        metrics := { session.metrics with tracksPlayed := session.metrics.tracksPlayed + 1 } }
    { st with
      activeSessions := mapSet st.activeSessions sessionId session2
      sessionEvents := st.sessionEvents ++
        [{ type := "TRACK_CHANGED", sessionId := sessionId, timestamp := now, track := some track }] }

/-- `endSession(sessionId)`: no-op when the session is absent; otherwise
clears every remaining participant's user-to-session index entry, removes
the session and emits `SESSION_ENDED` with the final computed metrics. -/
noncomputable def endSession (st : ManagerState) (sessionId : String)
    (now : ℚ) : ManagerState :=
  match mapGet st.activeSessions sessionId with
  | none => st
  | some session =>
    { st with
      activeSessions := mapDelete st.activeSessions sessionId
      userSessions := session.participants.foldl
        (fun us p => mapDelete us p.2.userId) st.userSessions
      sessionEvents := st.sessionEvents ++
        [{ type := "SESSION_ENDED"
           sessionId := sessionId
           timestamp := now
           finalMetrics := some (calculateSessionMetrics session now) }] }

/-- `leaveSession(sessionId, connectionId)`: resolves the participant by
connection id; silent no-op when the session or the connection is
unknown; removes the participant and their index entry, emits `USER_LEFT`
and ends the session if the participant set became empty. -/
noncomputable def leaveSession (st : ManagerState) (sessionId connectionId : String)
    (now : ℚ) : ManagerState :=
  match mapGet st.activeSessions sessionId with
  | none => st
  | some session =>
    match session.participants.find? (fun p => p.2.connectionId == connectionId) with
    | none => st
    | some found =>
      let userIdToRemove := found.1
      let session2 :=
        { session with participants := mapDelete session.participants userIdToRemove }
      let st2 : ManagerState :=
        { st with
          activeSessions := mapSet st.activeSessions sessionId session2
          userSessions := mapDelete st.userSessions userIdToRemove
          sessionEvents := st.sessionEvents ++
            [{ type := "USER_LEFT"
               sessionId := sessionId
               timestamp := now
               userId := some userIdToRemove }] }
      if session2.participants.length = 0 then endSession st2 sessionId now else st2

/-- `getSessionMetrics(sessionId)`: `null` for an unknown session,
computed on demand otherwise. -/
noncomputable def getSessionMetrics (st : ManagerState) (sessionId : String)
    (now : ℚ) : Option ComputedMetrics :=
  (mapGet st.activeSessions sessionId).map (fun s => calculateSessionMetrics s now)

/-! ## POST /:sessionId/reaction route (src/routes/sessions.js) -/

/-- The `enum` of the route's JSON schema for the `reaction` body field. -/
def validSentiments : List String :=
  ["strongly dislike", "dislike", "neutral", "like", "strongly like"]

/-- The fastify JSON-schema guard of the reaction route: `reaction` must be
one of the five sentiment labels and `intensity`, when present, must lie
in `[1, 5]`.  fastify validates the body before the handler runs, so a
failing body is answered with 400 and the handler is never entered. -/
def reactionSchemaValid (rd : ReactionRec) : Bool :=
  validSentiments.contains rd.reaction &&
    (match rd.intensity with
     | none => true
     | some v => decide (1 ≤ v) && decide (v ≤ 5))

/-- The state touched by the reaction route: the session manager and the
engine's preference model. -/
structure SystemState where
  manager : ManagerState
  userPreferences : List (String × List (String × ℚ))

/-- The reaction route: on a schema-valid body the handler runs
`sessionManager.updateUserReaction` and then the preference update of
`musicEngine.processReaction`; on an invalid body fastify rejects before
the handler, leaving all state unchanged (`false` = rejected).
`rd.timestamp` carries the handler's `Date.now()`. -/
noncomputable def submitReactionRoute (sys : SystemState) (sessionId : String)
    (rd : ReactionRec) : SystemState × Bool :=
  if reactionSchemaValid rd then
    ({ manager := updateUserReaction sys.manager sessionId rd rd.timestamp
       userPreferences := processReactionPrefs sys.userPreferences rd }, true)
  else (sys, false)

/-! ## Further association-list lemmas -/

theorem mapGet_mapDelete_self {α : Type} (m : List (String × α)) (k : String) :
    mapGet (mapDelete m k) k = none := by
  unfold mapGet mapDelete
  induction m with
  | nil => rfl
  | cons a l ih =>
    by_cases ha : a.1 = k
    · rw [List.filter_cons]
      have hb : (!(a.1 == k)) = false := by simp [ha]
      rw [hb, if_neg (by simp)]
      exact ih
    · rw [List.filter_cons]
      have : (!(a.1 == k)) = true := by simp [ha]
      rw [if_pos this, List.find?_cons_of_neg _ (by simp [ha])]
      exact ih

theorem mapGet_mapDelete_ne {α : Type} (m : List (String × α)) (k k' : String)
    (hne : k' ≠ k) : mapGet (mapDelete m k) k' = mapGet m k' := by
  unfold mapGet mapDelete
  induction m with
  | nil => rfl
  | cons a l ih =>
    by_cases ha : a.1 = k
    · have ha' : ¬a.1 = k' := by rw [ha]; exact fun hc => hne hc.symm
      rw [List.filter_cons]
      have : (!(a.1 == k)) = false := by simp [ha]
      rw [if_neg (by simp [this]), List.find?_cons_of_neg _ (by simp [ha'])]
      exact ih
    · rw [List.filter_cons]
      have : (!(a.1 == k)) = true := by simp [ha]
      rw [if_pos this]
      by_cases hk' : a.1 = k'
      · rw [List.find?_cons_of_pos _ (by simp [hk']),
          List.find?_cons_of_pos _ (by simp [hk'])]
      · rw [List.find?_cons_of_neg _ (by simp [hk']),
          List.find?_cons_of_neg _ (by simp [hk'])]
        exact ih

/-! ## Step lemmas for leaveSession and endSession -/

theorem endSession_eq_of_none (st : ManagerState) (sessionId : String) (now : ℚ)
    (h : mapGet st.activeSessions sessionId = none) :
    endSession st sessionId now = st := by
  unfold endSession
  rw [h]

theorem endSession_eq_of_some (st : ManagerState) (sessionId : String) (now : ℚ)
    (session : Session) (h : mapGet st.activeSessions sessionId = some session) :
    endSession st sessionId now =
      { st with
        activeSessions := mapDelete st.activeSessions sessionId
        userSessions := session.participants.foldl
          (fun us p => mapDelete us p.2.userId) st.userSessions
        sessionEvents := st.sessionEvents ++
          [{ type := "SESSION_ENDED"
             sessionId := sessionId
             timestamp := now
             finalMetrics := some (calculateSessionMetrics session now) }] } := by
  unfold endSession
  rw [h]

theorem leaveSession_eq_of_none (st : ManagerState) (sessionId connectionId : String)
    (now : ℚ) (h : mapGet st.activeSessions sessionId = none) :
    leaveSession st sessionId connectionId now = st := by
  unfold leaveSession
  rw [h]

theorem leaveSession_eq_of_noMatch (st : ManagerState) (sessionId connectionId : String)
    (now : ℚ) (session : Session)
    (hses : mapGet st.activeSessions sessionId = some session)
    (hfind : session.participants.find? (fun p => p.2.connectionId == connectionId) = none) :
    leaveSession st sessionId connectionId now = st := by
  unfold leaveSession
  rw [hses]
  dsimp only
  rw [hfind]

theorem leaveSession_eq_of_match (st : ManagerState) (sessionId connectionId : String)
    (now : ℚ) (session : Session) (found : String × Participant)
    (hses : mapGet st.activeSessions sessionId = some session)
    (hfind : session.participants.find? (fun p => p.2.connectionId == connectionId) =
      some found) :
    leaveSession st sessionId connectionId now =
      (if (mapDelete session.participants found.1).length = 0 then
        endSession
          { st with
            activeSessions := mapSet st.activeSessions sessionId
              { session with participants := mapDelete session.participants found.1 }
            userSessions := mapDelete st.userSessions found.1
            sessionEvents := st.sessionEvents ++
              [{ type := "USER_LEFT"
                 sessionId := sessionId
                 timestamp := now
                 userId := some found.1 }] }
          sessionId now
      else
        { st with
          activeSessions := mapSet st.activeSessions sessionId
            { session with participants := mapDelete session.participants found.1 }
          userSessions := mapDelete st.userSessions found.1
          sessionEvents := st.sessionEvents ++
            [{ type := "USER_LEFT"
               sessionId := sessionId
               timestamp := now
               userId := some found.1 }] }) := by
  unfold leaveSession
  rw [hses]
  dsimp only
  rw [hfind]

/-! ## Claim C1: empty sessions and the session store -/

/-- A manager state holding one freshly created session `s1` that nobody
has joined yet. -/
def freshSessionState : ManagerState :=
  (createSession initialManagerState { sessionId := some "s1" } "unused" 0).2

/-- C1 (counterexample): immediately after `createSession` and before any
join, the session sits in the store with an empty participant set, so a
session whose participant set is empty is not always absent from the
store. -/
theorem C1_counterexample :
    (mapGet freshSessionState.activeSessions "s1").isSome = true ∧
      (mapGet freshSessionState.activeSessions "s1").map (fun s => s.participants) =
        some [] := by
  exact ⟨rfl, rfl⟩

/-- C1 (amended): a leave never leaves an emptied session behind — after
`leaveSession`, a session still stored under the target id either has a
nonempty participant set or is untouched (the leave removed nobody);
sessions created and not yet joined do remain in the store with zero
participants. -/
theorem C1_amended (st : ManagerState) (sessionId connectionId : String) (now : ℚ)
    (s2 : Session)
    (h : mapGet (leaveSession st sessionId connectionId now).activeSessions sessionId =
      some s2) :
    s2.participants ≠ [] ∨ mapGet st.activeSessions sessionId = some s2 := by
  cases hses : mapGet st.activeSessions sessionId with
  | none =>
    rw [leaveSession_eq_of_none st sessionId connectionId now hses] at h
    exact Or.inr (hses.symm.trans h)
  | some session =>
    cases hfind : session.participants.find? (fun p => p.2.connectionId == connectionId) with
    | none =>
      rw [leaveSession_eq_of_noMatch st sessionId connectionId now session hses hfind] at h
      exact Or.inr (hses.symm.trans h)
    | some found =>
      rw [leaveSession_eq_of_match st sessionId connectionId now session found hses hfind] at h
      by_cases hlen : (mapDelete session.participants found.1).length = 0
      · rw [if_pos hlen] at h
        rw [endSession_eq_of_some _ sessionId now
          { session with participants := mapDelete session.participants found.1 }
          (mapGet_mapSet_self ..)] at h
        simp only at h
        rw [mapGet_mapDelete_self] at h
        exact absurd h (by simp)
      · rw [if_neg hlen] at h
        simp only at h
        rw [mapGet_mapSet_self] at h
        have hs2 : s2 =
            { session with participants := mapDelete session.participants found.1 } :=
          (Option.some_injective _ h).symm
        left
        rw [hs2]
        simp only
        exact fun hc => hlen (by rw [hc]; rfl)

/-- C1 (amended) witness: leaving the fresh session with an unknown
connection id keeps it stored untouched, with its empty participant set. -/
theorem C1_amended_witness :
    ((createSession initialManagerState { sessionId := some "s1" } "unused" 0).1).participants ≠ [] ∨
      mapGet freshSessionState.activeSessions "s1" =
        some (createSession initialManagerState { sessionId := some "s1" } "unused" 0).1 :=
  C1_amended freshSessionState "s1" "c0" 3
    (createSession initialManagerState { sessionId := some "s1" } "unused" 0).1 rfl

/-! ## Claim C7: joinSession -/

/-- C7: `joinSession` fails with the session-not-found error exactly when
the session id is absent, and then changes nothing; when the session
exists it succeeds, stores the participant keyed by the user id with the
join timestamp, points the user-to-session index at the session, and
returns the updated session. -/
theorem C7_joinSession (st : ManagerState) (sessionId : String) (u : UserInfo) (now : ℚ) :
    (mapGet st.activeSessions sessionId = none →
      joinSession st sessionId u now =
        (Except.error ("Session " ++ sessionId ++ " not found"), st)) ∧
    (∀ session, mapGet st.activeSessions sessionId = some session →
      (joinSession st sessionId u now).1 =
        Except.ok
          { session with
            participants := mapSet session.participants u.userId
              { userId := u.userId
                profileId := u.profileId
                connectionId := u.connectionId
                joinedAt := now
                reactions := []
                currentEngagement := 0
                totalListeningTime := 0 } } ∧
      mapGet (joinSession st sessionId u now).2.activeSessions sessionId =
        some
          { session with
            participants := mapSet session.participants u.userId
              { userId := u.userId
                profileId := u.profileId
                connectionId := u.connectionId
                joinedAt := now
                reactions := []
                currentEngagement := 0
                totalListeningTime := 0 } } ∧
      mapGet (joinSession st sessionId u now).2.userSessions u.userId = some sessionId) := by
  constructor
  · intro h
    unfold joinSession
    rw [h]
  · intro session h
    unfold joinSession
    rw [h]
    refine ⟨rfl, ?_, ?_⟩
    · exact mapGet_mapSet_self ..
    · exact mapGet_mapSet_self ..

/-- C7 witness: both branches at concrete inputs — joining the absent
session `nope` fails and changes nothing; joining `s1` of the fresh state
stores the participant, index entry and returns the session. -/
theorem C7_joinSession_witness :
    (joinSession freshSessionState "nope" { userId := "u", profileId := "p", connectionId := "c" } 5 =
      (Except.error ("Session " ++ "nope" ++ " not found"), freshSessionState)) ∧
    mapGet (joinSession freshSessionState "s1"
        { userId := "u", profileId := "p", connectionId := "c" } 5).2.userSessions "u" =
      some "s1" := by
  constructor
  · exact (C7_joinSession freshSessionState "nope"
      { userId := "u", profileId := "p", connectionId := "c" } 5).1 rfl
  · exact ((C7_joinSession freshSessionState "s1"
      { userId := "u", profileId := "p", connectionId := "c" } 5).2 _ rfl).2.2

/-! ## Claim C9: the preference model is last-write-wins -/

/-- C9: processing a reaction overwrites the (profile, track) preference
entry with exactly the derived score — the intensity when provided (the
data model's intensities are 1..5, in particular nonzero), otherwise the
sentiment mapping, otherwise 3 — and leaves every other profile's entry
and every other track entry of the same profile unchanged. -/
theorem C9_preferences_last_write_wins (prefs : List (String × List (String × ℚ)))
    (rd : ReactionRec) (hnz : rd.intensity ≠ some 0) :
    mapGet ((mapGet (processReactionPrefs prefs rd) rd.profileId).getD []) rd.trackId =
      some (match rd.intensity with
        | some v => v
        | none => (mapGet baseScores rd.reaction).getD 3) ∧
    (∀ p, p ≠ rd.profileId →
      mapGet (processReactionPrefs prefs rd) p = mapGet prefs p) ∧
    (∀ t, t ≠ rd.trackId →
      mapGet ((mapGet (processReactionPrefs prefs rd) rd.profileId).getD []) t =
        mapGet ((mapGet prefs rd.profileId).getD []) t) := by
  have hscore : reactionToScore rd.reaction rd.intensity =
      (match rd.intensity with
        | some v => v
        | none => (mapGet baseScores rd.reaction).getD 3) := by
    unfold reactionToScore
    cases hi : rd.intensity with
    | none => rfl
    | some v =>
      have hv : ¬v = 0 := fun hc => hnz (by rw [hi, hc])
      simp [hv]
  unfold processReactionPrefs updateUserPreferencesWithScore
  refine ⟨?_, ?_, ?_⟩
  · rw [mapGet_mapSet_self]
    simp only [Option.getD_some]
    rw [mapGet_mapSet_self, hscore]
  · intro p hp
    exact mapGet_mapSet_ne _ _ _ _ hp
  · intro t ht
    rw [mapGet_mapSet_self]
    simp only [Option.getD_some]
    exact mapGet_mapSet_ne _ _ _ _ ht

/-- C9 witness: a concrete reaction with no intensity overwrites the
stored score 5 for (p1, t1) with the sentiment score 2, leaving (p2, t1)
and (p1, t2) untouched. -/
theorem C9_preferences_witness :
    mapGet ((mapGet (processReactionPrefs
        [("p1", [("t1", 5), ("t2", 4)]), ("p2", [("t1", 1)])]
        { trackId := "t1", reaction := "dislike", intensity := none,
          profileId := "p1", timestamp := 0 }) "p1").getD []) "t1" =
      some 2 ∧
    mapGet (processReactionPrefs
        [("p1", [("t1", 5), ("t2", 4)]), ("p2", [("t1", 1)])]
        { trackId := "t1", reaction := "dislike", intensity := none,
          profileId := "p1", timestamp := 0 }) "p2" =
      mapGet [("p1", [("t1", (5 : ℚ))]), ("p2", [("t1", 1)])] "p2" := by
  have h := C9_preferences_last_write_wins
    [("p1", [("t1", 5), ("t2", 4)]), ("p2", [("t1", 1)])]
    { trackId := "t1", reaction := "dislike", intensity := none,
      profileId := "p1", timestamp := 0 } (by simp)
  refine ⟨h.1, ?_⟩
  rw [h.2.1 "p2" (by decide)]
  rfl

/-! ## Claim C2: validation of malformed reactions -/

/-- A malformed reaction: unknown sentiment label and intensity outside
1..5. -/
def badReaction : ReactionRec :=
  { trackId := "t1"
    reaction := "amazing"
    intensity := some 99
    profileId := "p"
    timestamp := 7 }

/-- C2 (counterexample): recording a malformed reaction through the core
`updateUserReaction` (as the WebSocket path does, with no schema guard) is
not rejected: the session's reaction list grows and the positive counter
is bumped, although the sentiment is unknown and the intensity is 99. -/
theorem C2_counterexample :
    reactionSchemaValid badReaction = false ∧
    (mapGet freshSessionState.activeSessions "s1").map (fun s => s.reactions) = some [] ∧
    (mapGet (updateUserReaction freshSessionState "s1" badReaction 7).activeSessions
        "s1").map (fun s => s.reactions) = some [badReaction] ∧
    (mapGet (updateUserReaction freshSessionState "s1" badReaction 7).activeSessions
        "s1").map (fun s => s.metrics.positiveReactions) = some 1 := by
  refine ⟨rfl, rfl, rfl, ?_⟩
  have h4 : (mapGet (updateUserReaction freshSessionState "s1" badReaction 7).activeSessions
      "s1").map (fun s => s.metrics.positiveReactions) = some ((0 : ℚ) + 1) := rfl
  rw [h4]
  norm_num

/-- C2 (amended): only the HTTP reaction route validates: a body whose
sentiment is not one of the five labels or whose intensity lies outside
1..5 fails the route's JSON schema and is rejected by fastify before the
handler runs, so the session store and the preference model are unchanged
by the call; reactions reaching the core directly bypass this guard. -/
theorem C2_amended (sys : SystemState) (sessionId : String) (rd : ReactionRec)
    (hinv : reactionSchemaValid rd = false) :
    submitReactionRoute sys sessionId rd = (sys, false) ∧
    (submitReactionRoute sys sessionId rd).1.manager = sys.manager ∧
    (submitReactionRoute sys sessionId rd).1.userPreferences = sys.userPreferences := by
  unfold submitReactionRoute
  rw [hinv]
  exact ⟨rfl, rfl, rfl⟩

/-- C2 (amended) witness: the malformed reaction is rejected by the route
with all state unchanged. -/
theorem C2_amended_witness :
    submitReactionRoute { manager := freshSessionState, userPreferences := [] } "s1"
      badReaction = ({ manager := freshSessionState, userPreferences := [] }, false) :=
  (C2_amended { manager := freshSessionState, userPreferences := [] } "s1"
    badReaction rfl).1

/-! ## Claim C10: reactions whose profile matches no participant -/

/-- C10: recording a reaction on an existing session whose profile id
matches no current participant still appends the reaction to the session
list and still updates the positive/negative counters and the average
engagement, while the participant table — every personal reaction list and
engagement score — is unchanged. -/
theorem C10_reaction_without_participant (st : ManagerState) (sessionId : String)
    (rd : ReactionRec) (now : ℚ) (session : Session)
    (hses : mapGet st.activeSessions sessionId = some session)
    (hnp : ∀ p ∈ session.participants, p.2.profileId ≠ rd.profileId) :
    mapGet (updateUserReaction st sessionId rd now).activeSessions sessionId =
      some
        { session with
          reactions := session.reactions ++ [rd]
          metrics :=
            { session.metrics with
              positiveReactions := session.metrics.positiveReactions +
                (if isPositiveReaction rd = true then 1 else 0)
              negativeReactions := session.metrics.negativeReactions +
                (if isPositiveReaction rd = false ∧ isNegativeReaction rd = true then 1 else 0)
              averageEngagement :=
                if 0 < session.participants.length then
                  (session.participants.map (fun p => p.2.currentEngagement)).sum /
                    (session.participants.length : ℝ)
                else 0 } } := by
  unfold updateUserReaction
  rw [hses]
  dsimp only
  rw [updateFirst_of_not_any _ _ session.participants
    (fun p hp => by simp [hnp p hp])]
  rw [mapGet_mapSet_self]
  unfold updateSessionMetrics
  dsimp only
  by_cases hpos : isPositiveReaction rd = true
  · simp [hpos]
  · by_cases hneg : isNegativeReaction rd = true
    · simp [hpos, hneg, Bool.eq_false_iff.mpr hpos]
    · simp [hpos, hneg, Bool.eq_false_iff.mpr hpos]

/-- A manager state holding session `s1` with the single participant `u1`
(profile `q1`, connection `c1`). -/
def oneUserState : ManagerState :=
  (joinSession freshSessionState "s1"
    { userId := "u1", profileId := "q1", connectionId := "c1" } 1).2

/-- The session stored in `oneUserState` under `s1`. -/
def oneUserSession : Session :=
  { id := "s1"
    createdAt := 0
    participants :=
      [("u1",
        { userId := "u1"
          profileId := "q1"
          connectionId := "c1"
          joinedAt := 1
          reactions := []
          currentEngagement := 0
          totalListeningTime := 0 })]
    currentTrack := none
    playlist := []
    reactions := []
    metrics :=
      { totalDuration := 0
        tracksPlayed := 0
        positiveReactions := 0
        negativeReactions := 0
        averageEngagement := 0 }
    settings :=
      { autoNext := true
        reactionThreshold := 3
        maxParticipants := 10 } }

/-- A neutral reaction from profile `p0`, which is not in the session. -/
def strayReaction : ReactionRec :=
  { trackId := "t1"
    reaction := "neutral"
    intensity := none
    profileId := "p0"
    timestamp := 2 }

/-- C10 witness: the stray reaction is appended to `s1` while the single
participant `u1` is untouched. -/
theorem C10_reaction_without_participant_witness :
    mapGet (updateUserReaction oneUserState "s1" strayReaction 2).activeSessions "s1" =
      some
        { oneUserSession with
          reactions := oneUserSession.reactions ++ [strayReaction]
          metrics :=
            { oneUserSession.metrics with
              positiveReactions := oneUserSession.metrics.positiveReactions +
                (if isPositiveReaction strayReaction = true then 1 else 0)
              negativeReactions := oneUserSession.metrics.negativeReactions +
                (if isPositiveReaction strayReaction = false ∧
                    isNegativeReaction strayReaction = true then 1 else 0)
              averageEngagement :=
                if 0 < oneUserSession.participants.length then
                  (oneUserSession.participants.map (fun p => p.2.currentEngagement)).sum /
                    (oneUserSession.participants.length : ℝ)
                else 0 } } :=
  C10_reaction_without_participant oneUserState "s1" strayReaction 2 oneUserSession
    rfl (by decide)

/-! ## Claim C6: idempotence of leaveSession -/

/-- A manager state where two participants of `s1` share the connection id
`c1` (reachable: two joins with the same connection id). -/
def dupConnState : ManagerState :=
  (joinSession oneUserState "s1"
    { userId := "u2", profileId := "q2", connectionId := "c1" } 2).2

/-- C6 (counterexample): on a store state where two participants share the
connection id, the second `leaveSession` with that id removes the second
participant (here even ending the session), so calling it twice is not the
same as calling it once. -/
theorem C6_counterexample :
    leaveSession (leaveSession dupConnState "s1" "c1" 3) "s1" "c1" 3 ≠
      leaveSession dupConnState "s1" "c1" 3 := by
  intro h
  have h1 : (mapGet (leaveSession dupConnState "s1" "c1" 3).activeSessions "s1").isSome =
      true := rfl
  have h2 : (mapGet (leaveSession (leaveSession dupConnState "s1" "c1" 3) "s1" "c1"
      3).activeSessions "s1").isSome = false := rfl
  rw [h, h1] at h2
  exact absurd h2 (by decide)

theorem find?_mapDelete_none_of_unique {l : List (String × Participant)} {cid : String}
    {found : String × Participant}
    (hfind : l.find? (fun p => p.2.connectionId == cid) = some found)
    (huniq : (l.filter (fun p => p.2.connectionId == cid)).length ≤ 1) :
    (mapDelete l found.1).find? (fun p => p.2.connectionId == cid) = none := by
  rw [List.find?_eq_none]
  intro b hb hpb
  unfold mapDelete at hb
  have hbl : b ∈ l := (List.mem_filter.mp hb).1
  have hbk : (!(b.1 == found.1)) = true := (List.mem_filter.mp hb).2
  have hfound_mem : found ∈ l := List.mem_of_find?_eq_some hfind
  have hfound_p : (fun p => p.2.connectionId == cid) found = true :=
    List.find?_some (p := fun q : String × Participant => q.2.connectionId == cid) hfind
  have h1 : found ∈ l.filter (fun p => p.2.connectionId == cid) :=
    List.mem_filter.mpr ⟨hfound_mem, hfound_p⟩
  have h2 : b ∈ l.filter (fun p => p.2.connectionId == cid) :=
    List.mem_filter.mpr ⟨hbl, hpb⟩
  have hlen1 : (l.filter (fun p => p.2.connectionId == cid)).length = 1 :=
    le_antisymm huniq (List.length_pos.mpr (List.ne_nil_of_mem h1))
  obtain ⟨z, hz⟩ := List.length_eq_one.mp hlen1
  rw [hz] at h1 h2
  have hfz : found = z := by simpa using h1
  have hbz : b = z := by simpa using h2
  rw [← hfz] at hbz
  rw [hbz] at hbk
  simp at hbk

/-- C6 (amended): provided the target session has at most one participant
holding the connection id — as is the case whenever connection ids are
unique per connection — `leaveSession` is idempotent: the second call
changes neither the session table, nor any participant set, nor the
user-to-session index, and emits no event (full state equality). -/
theorem C6_leaveSession_idempotent (st : ManagerState) (sessionId connectionId : String)
    (now now2 : ℚ)
    (huniq : ∀ session, mapGet st.activeSessions sessionId = some session →
      (session.participants.filter (fun p => p.2.connectionId == connectionId)).length ≤ 1) :
    leaveSession (leaveSession st sessionId connectionId now) sessionId connectionId now2 =
      leaveSession st sessionId connectionId now := by
  cases hses : mapGet st.activeSessions sessionId with
  | none =>
    rw [leaveSession_eq_of_none st sessionId connectionId now hses,
      leaveSession_eq_of_none st sessionId connectionId now2 hses]
  | some session =>
    cases hfind : session.participants.find? (fun p => p.2.connectionId == connectionId) with
    | none =>
      rw [leaveSession_eq_of_noMatch st sessionId connectionId now session hses hfind,
        leaveSession_eq_of_noMatch st sessionId connectionId now2 session hses hfind]
    | some found =>
      rw [leaveSession_eq_of_match st sessionId connectionId now session found hses hfind]
      by_cases hlen : (mapDelete session.participants found.1).length = 0
      · rw [if_pos hlen]
        apply leaveSession_eq_of_none
        rw [endSession_eq_of_some _ sessionId now
          { session with participants := mapDelete session.participants found.1 }
          (mapGet_mapSet_self ..)]
        exact mapGet_mapDelete_self ..
      · rw [if_neg hlen]
        exact leaveSession_eq_of_noMatch _ sessionId connectionId now2
          { session with participants := mapDelete session.participants found.1 }
          (mapGet_mapSet_self ..)
          (find?_mapDelete_none_of_unique hfind (huniq session hses))

/-- C6 (amended) witness: with the single participant `u1` on connection
`c1`, leaving twice equals leaving once. -/
theorem C6_leaveSession_idempotent_witness :
    leaveSession (leaveSession oneUserState "s1" "c1" 3) "s1" "c1" 4 =
      leaveSession oneUserState "s1" "c1" 3 :=
  C6_leaveSession_idempotent oneUserState "s1" "c1" 3 4
    (fun session hs => by
      rw [show mapGet oneUserState.activeSessions "s1" = some oneUserSession from rfl] at hs
      cases hs
      decide)

/-! ## Lemmas about the stable descending sort -/

theorem insertDescBy_perm {α : Type} (score : α → ℚ) (a : α) (l : List α) :
    (insertDescBy score a l).Perm (a :: l) := by
  induction l with
  | nil => exact List.Perm.refl _
  | cons b l ih =>
    unfold insertDescBy
    by_cases h : score b ≤ score a
    · rw [if_pos h]
    · rw [if_neg h]
      exact (ih.cons b).trans (List.Perm.swap a b l)

theorem sortDescBy_perm {α : Type} (score : α → ℚ) (l : List α) :
    (sortDescBy score l).Perm l := by
  induction l with
  | nil => exact List.Perm.refl _
  | cons a l ih =>
    unfold sortDescBy
    exact (insertDescBy_perm score a (sortDescBy score l)).trans (ih.cons a)

theorem mem_insertDescBy {α : Type} {score : α → ℚ} {a x : α} {l : List α} :
    x ∈ insertDescBy score a l ↔ x = a ∨ x ∈ l := by
  rw [(insertDescBy_perm score a l).mem_iff]
  simp

theorem insertDescBy_sorted {α : Type} (score : α → ℚ) (a : α) (l : List α)
    (h : l.Pairwise (fun x y => score y ≤ score x)) :
    (insertDescBy score a l).Pairwise (fun x y => score y ≤ score x) := by
  induction l with
  | nil => simp [insertDescBy]
  | cons b l ih =>
    rw [List.pairwise_cons] at h
    unfold insertDescBy
    by_cases hba : score b ≤ score a
    · rw [if_pos hba]
      refine List.Pairwise.cons ?_ (List.Pairwise.cons h.1 h.2)
      intro y hy
      rcases List.mem_cons.mp hy with hyb | hyl
      · rw [hyb]; exact hba
      · exact le_trans (h.1 y hyl) hba
    · rw [if_neg hba]
      refine List.Pairwise.cons ?_ (ih h.2)
      intro y hy
      rcases mem_insertDescBy.mp hy with hya | hyl
      · rw [hya]; exact le_of_lt (lt_of_not_le hba)
      · exact h.1 y hyl

theorem sortDescBy_sorted {α : Type} (score : α → ℚ) (l : List α) :
    (sortDescBy score l).Pairwise (fun x y => score y ≤ score x) := by
  induction l with
  | nil => simp [sortDescBy]
  | cons a l ih =>
    unfold sortDescBy
    exact insertDescBy_sorted score a (sortDescBy score l) ih

/-! ## Claim C5: the recommendation combiner -/

/-- The total score a single strategy list proposes for a track. -/
def strategySum (l : List RecEntry) (t : String) : ℚ :=
  ((l.filter (fun r => r.trackId == t)).map (fun r => r.score)).sum

/-- The reasons a single strategy list proposes for a track, in proposal
order. -/
def strategyReasons (l : List RecEntry) (t : String) : List String :=
  (l.filter (fun r => r.trackId == t)).map (fun r => r.reason)

/-- The keys of a combined accumulator. -/
def combKeys (acc : List Combined) : List String := acc.map (fun c => c.trackId)

/-- Total score stored for a track in a combined accumulator. -/
def combScore (acc : List Combined) (t : String) : ℚ :=
  ((acc.filter (fun c => c.trackId == t)).map (fun c => c.score)).sum

/-- Reasons stored for a track in a combined accumulator. -/
def combReasons (acc : List Combined) (t : String) : List String :=
  ((acc.filter (fun c => c.trackId == t)).map (fun c => c.reasons)).flatten

theorem combScore_cons (c : Combined) (cs : List Combined) (t : String) :
    combScore (c :: cs) t = (if c.trackId = t then c.score else 0) + combScore cs t := by
  unfold combScore
  by_cases h : c.trackId = t <;> simp [List.filter_cons, h]

theorem combReasons_cons (c : Combined) (cs : List Combined) (t : String) :
    combReasons (c :: cs) t =
      (if c.trackId = t then c.reasons else []) ++ combReasons cs t := by
  unfold combReasons
  by_cases h : c.trackId = t <;> simp [List.filter_cons, h]

theorem combScore_append_singleton (acc : List Combined) (c : Combined) (t : String) :
    combScore (acc ++ [c]) t = combScore acc t + (if c.trackId = t then c.score else 0) := by
  unfold combScore
  rw [List.filter_append, List.map_append, List.sum_append]
  by_cases h : c.trackId = t <;> simp [h]

theorem combReasons_append_singleton (acc : List Combined) (c : Combined) (t : String) :
    combReasons (acc ++ [c]) t =
      combReasons acc t ++ (if c.trackId = t then c.reasons else []) := by
  unfold combReasons
  rw [List.filter_append, List.map_append, List.flatten_append]
  by_cases h : c.trackId = t <;> simp [h]

theorem nodup_combKeys_addRec (w : ℚ) (acc : List Combined) (r : RecEntry)
    (hnd : (combKeys acc).Nodup) : (combKeys (addRec w acc r)).Nodup := by
  unfold addRec
  by_cases hany : acc.any (fun c => c.trackId == r.trackId) = true
  · rw [if_pos hany]
    have hkeys : combKeys (acc.map (fun c => if c.trackId == r.trackId then
        { c with score := c.score + r.score * w, reasons := c.reasons ++ [r.reason] }
        else c)) = combKeys acc := by
      unfold combKeys
      rw [List.map_map]
      apply List.map_congr_left
      intro c _
      by_cases h : c.trackId = r.trackId <;> simp [Function.comp, h]
    rw [hkeys]
    exact hnd
  · rw [if_neg hany]
    unfold combKeys
    rw [List.map_append]
    refine List.Nodup.append hnd (by simp) ?_
    intro a ha hb
    simp only [List.map_cons, List.map_nil, List.mem_singleton] at hb
    rw [List.any_eq_true] at hany
    obtain ⟨c, hc, hct⟩ := List.mem_map.mp ha
    exact hany ⟨c, hc, by simp [hct, hb]⟩

theorem map_update_eq_self_of_no_hit (cs : List Combined) (r : RecEntry) (w : ℚ)
    (hno : ∀ c ∈ cs, c.trackId ≠ r.trackId) :
    cs.map (fun c => if c.trackId == r.trackId then
        { c with score := c.score + r.score * w, reasons := c.reasons ++ [r.reason] }
        else c) = cs := by
  have h1 := List.map_congr_left (l := cs)
    (f := fun c => if c.trackId == r.trackId then
      { c with score := c.score + r.score * w, reasons := c.reasons ++ [r.reason] }
      else c)
    (g := id) (fun c hc => by simp [hno c hc])
  rw [h1, List.map_id]

theorem combScore_updateHit (acc : List Combined) (r : RecEntry) (w : ℚ) (t : String)
    (hnd : (combKeys acc).Nodup) :
    combScore (acc.map (fun c => if c.trackId == r.trackId then
        { c with score := c.score + r.score * w, reasons := c.reasons ++ [r.reason] }
        else c)) t =
      combScore acc t +
        (if acc.any (fun c => c.trackId == r.trackId) = true then
          (if r.trackId = t then r.score * w else 0) else 0) := by
  induction acc with
  | nil => simp [combScore]
  | cons c0 cs ih =>
    unfold combKeys at hnd
    rw [List.map_cons, List.nodup_cons] at hnd
    by_cases h0 : c0.trackId = r.trackId
    · have hcs := map_update_eq_self_of_no_hit cs r w (fun c hc hceq => hnd.1
        (List.mem_map.mpr ⟨c, hc, hceq.trans h0.symm⟩))
      rw [List.map_cons, hcs]
      have hf0 : (if c0.trackId == r.trackId then
          { c0 with score := c0.score + r.score * w, reasons := c0.reasons ++ [r.reason] }
          else c0) =
          { c0 with score := c0.score + r.score * w, reasons := c0.reasons ++ [r.reason] } := by
        simp [h0]
      rw [hf0, combScore_cons, combScore_cons]
      have hanyT : ((c0 :: cs).any (fun c => c.trackId == r.trackId)) = true := by
        simp [List.any_cons, h0]
      rw [if_pos hanyT, ← h0]
      by_cases ht : c0.trackId = t
      · simp only [if_pos ht]
        ring
      · simp only [if_neg ht]
        ring
    · have hf0 : (if c0.trackId == r.trackId then
          { c0 with score := c0.score + r.score * w, reasons := c0.reasons ++ [r.reason] }
          else c0) = c0 := by
        simp [h0]
      rw [List.map_cons, hf0, combScore_cons, combScore_cons, ih hnd.2]
      have hany2 : ((c0 :: cs).any (fun c => c.trackId == r.trackId)) =
          (cs.any (fun c => c.trackId == r.trackId)) := by
        simp [List.any_cons, h0]
      rw [hany2]
      split_ifs <;> ring

theorem combScore_eq_zero_of_no_key (cs : List Combined) (t : String)
    (hno : ∀ c ∈ cs, c.trackId ≠ t) : combScore cs t = 0 := by
  unfold combScore
  rw [List.filter_eq_nil_iff.mpr (fun c hc => by simp [hno c hc])]
  rfl

theorem combReasons_eq_nil_of_no_key (cs : List Combined) (t : String)
    (hno : ∀ c ∈ cs, c.trackId ≠ t) : combReasons cs t = [] := by
  unfold combReasons
  rw [List.filter_eq_nil_iff.mpr (fun c hc => by simp [hno c hc])]
  rfl

theorem combReasons_updateHit (acc : List Combined) (r : RecEntry) (w : ℚ) (t : String)
    (hnd : (combKeys acc).Nodup) :
    combReasons (acc.map (fun c => if c.trackId == r.trackId then
        { c with score := c.score + r.score * w, reasons := c.reasons ++ [r.reason] }
        else c)) t =
      combReasons acc t ++
        (if acc.any (fun c => c.trackId == r.trackId) = true then
          (if r.trackId = t then [r.reason] else []) else []) := by
  induction acc with
  | nil => simp [combReasons]
  | cons c0 cs ih =>
    unfold combKeys at hnd
    rw [List.map_cons, List.nodup_cons] at hnd
    by_cases h0 : c0.trackId = r.trackId
    · have hcs := map_update_eq_self_of_no_hit cs r w (fun c hc hceq => hnd.1
        (List.mem_map.mpr ⟨c, hc, hceq.trans h0.symm⟩))
      rw [List.map_cons, hcs]
      have hf0 : (if c0.trackId == r.trackId then
          { c0 with score := c0.score + r.score * w, reasons := c0.reasons ++ [r.reason] }
          else c0) =
          { c0 with score := c0.score + r.score * w, reasons := c0.reasons ++ [r.reason] } := by
        simp [h0]
      rw [hf0, combReasons_cons, combReasons_cons]
      have hanyT : ((c0 :: cs).any (fun c => c.trackId == r.trackId)) = true := by
        simp [List.any_cons, h0]
      rw [if_pos hanyT, ← h0]
      by_cases ht : c0.trackId = t
      · have hnil := combReasons_eq_nil_of_no_key cs t
          (fun c hc hceq => hnd.1 (List.mem_map.mpr ⟨c, hc, hceq.trans ht.symm⟩))
        simp [ht, hnil]
      · simp [ht]
    · have hf0 : (if c0.trackId == r.trackId then
          { c0 with score := c0.score + r.score * w, reasons := c0.reasons ++ [r.reason] }
          else c0) = c0 := by
        simp [h0]
      rw [List.map_cons, hf0, combReasons_cons, combReasons_cons, ih hnd.2]
      have hany2 : ((c0 :: cs).any (fun c => c.trackId == r.trackId)) =
          (cs.any (fun c => c.trackId == r.trackId)) := by
        simp [List.any_cons, h0]
      rw [hany2]
      simp [List.append_assoc]

theorem combScore_addRec (w : ℚ) (acc : List Combined) (r : RecEntry) (t : String)
    (hnd : (combKeys acc).Nodup) :
    combScore (addRec w acc r) t =
      combScore acc t + (if r.trackId = t then r.score * w else 0) := by
  unfold addRec
  by_cases hany : acc.any (fun c => c.trackId == r.trackId) = true
  · rw [if_pos hany, combScore_updateHit acc r w t hnd, if_pos hany]
  · rw [if_neg hany, combScore_append_singleton]

theorem combReasons_addRec (w : ℚ) (acc : List Combined) (r : RecEntry) (t : String)
    (hnd : (combKeys acc).Nodup) :
    combReasons (addRec w acc r) t =
      combReasons acc t ++ (if r.trackId = t then [r.reason] else []) := by
  unfold addRec
  by_cases hany : acc.any (fun c => c.trackId == r.trackId) = true
  · rw [if_pos hany, combReasons_updateHit acc r w t hnd, if_pos hany]
  · rw [if_neg hany, combReasons_append_singleton]

theorem nodup_combKeys_foldl (w : ℚ) (recs : List RecEntry) (acc : List Combined)
    (hnd : (combKeys acc).Nodup) : (combKeys (recs.foldl (addRec w) acc)).Nodup := by
  induction recs generalizing acc with
  | nil => exact hnd
  | cons r rs ih => exact ih _ (nodup_combKeys_addRec w acc r hnd)

theorem combScore_foldl (w : ℚ) (recs : List RecEntry) (acc : List Combined) (t : String)
    (hnd : (combKeys acc).Nodup) :
    combScore (recs.foldl (addRec w) acc) t = combScore acc t + strategySum recs t * w := by
  induction recs generalizing acc with
  | nil => simp [strategySum]
  | cons r rs ih =>
    rw [List.foldl_cons, ih _ (nodup_combKeys_addRec w acc r hnd),
      combScore_addRec w acc r t hnd]
    have hs : strategySum (r :: rs) t =
        (if r.trackId = t then r.score else 0) + strategySum rs t := by
      unfold strategySum
      by_cases h : r.trackId = t <;> simp [List.filter_cons, h]
    rw [hs]
    split_ifs <;> ring

theorem combReasons_foldl (w : ℚ) (recs : List RecEntry) (acc : List Combined) (t : String)
    (hnd : (combKeys acc).Nodup) :
    combReasons (recs.foldl (addRec w) acc) t =
      combReasons acc t ++ strategyReasons recs t := by
  induction recs generalizing acc with
  | nil => simp [strategyReasons]
  | cons r rs ih =>
    rw [List.foldl_cons, ih _ (nodup_combKeys_addRec w acc r hnd),
      combReasons_addRec w acc r t hnd]
    have hs : strategyReasons (r :: rs) t =
        (if r.trackId = t then [r.reason] else []) ++ strategyReasons rs t := by
      unfold strategyReasons
      by_cases h : r.trackId = t <;> simp [List.filter_cons, h]
    rw [hs]
    simp [List.append_assoc]

theorem score_eq_combScore_of_mem {acc : List Combined} {c : Combined}
    (hnd : (combKeys acc).Nodup) (hc : c ∈ acc) : c.score = combScore acc c.trackId := by
  induction acc with
  | nil => simp at hc
  | cons c0 cs ih =>
    unfold combKeys at hnd
    rw [List.map_cons, List.nodup_cons] at hnd
    rcases List.mem_cons.mp hc with hc0 | hcs
    · subst hc0
      rw [combScore_cons, if_pos rfl,
        combScore_eq_zero_of_no_key cs c.trackId
          (fun e he heq => hnd.1 (List.mem_map.mpr ⟨e, he, heq⟩)), add_zero]
    · rw [combScore_cons,
        if_neg (fun he => hnd.1 (List.mem_map.mpr ⟨c, hcs, he.symm⟩)), zero_add]
      exact ih hnd.2 hcs

theorem reasons_eq_combReasons_of_mem {acc : List Combined} {c : Combined}
    (hnd : (combKeys acc).Nodup) (hc : c ∈ acc) : c.reasons = combReasons acc c.trackId := by
  induction acc with
  | nil => simp at hc
  | cons c0 cs ih =>
    unfold combKeys at hnd
    rw [List.map_cons, List.nodup_cons] at hnd
    rcases List.mem_cons.mp hc with hc0 | hcs
    · subst hc0
      rw [combReasons_cons, if_pos rfl,
        combReasons_eq_nil_of_no_key cs c.trackId
          (fun e he heq => hnd.1 (List.mem_map.mpr ⟨e, he, heq⟩)), List.append_nil]
    · rw [combReasons_cons,
        if_neg (fun he => hnd.1 (List.mem_map.mpr ⟨c, hcs, he.symm⟩)), List.nil_append]
      exact ih hnd.2 hcs

/-- C5 (amended): the combiner gives each proposed track the final score
`sum of strategyScore * strategyWeight` over the strategies that proposed
it (weights 0.4 / 0.4 / 0.2); a track's reasons accumulate as a list in
proposal order — which may contain duplicates when one strategy proposes
the same track twice, so the reasons need not form a set; the result is
sorted in descending score order, has length at most 10, and three empty
strategy lists yield the empty list, never an error. -/
theorem C5_combineRecommendations (collab content ctx : List RecEntry) :
    (∀ c ∈ combineSessionStrategies collab content ctx,
      c.score = strategySum collab c.trackId * 0.4 + strategySum content c.trackId * 0.4 +
        strategySum ctx c.trackId * 0.2 ∧
      c.reasons = strategyReasons collab c.trackId ++ strategyReasons content c.trackId ++
        strategyReasons ctx c.trackId) ∧
    (combineSessionStrategies collab content ctx).Pairwise
      (fun a b => b.score ≤ a.score) ∧
    (combineSessionStrategies collab content ctx).length ≤ 10 ∧
    combineSessionStrategies [] [] [] = [] := by
  have hfold : combineSessionStrategies collab content ctx =
      (sortDescBy (fun c : Combined => c.score)
        (ctx.foldl (addRec 0.2)
          (content.foldl (addRec 0.4)
            (collab.foldl (addRec 0.4) [])))).take 10 := rfl
  have hnd0 : (combKeys ([] : List Combined)).Nodup := by simp [combKeys]
  have hnd1 := nodup_combKeys_foldl 0.4 collab [] hnd0
  have hnd2 := nodup_combKeys_foldl 0.4 content _ hnd1
  have hnd3 := nodup_combKeys_foldl 0.2 ctx _ hnd2
  refine ⟨?_, ?_, ?_, rfl⟩
  · intro c hc
    rw [hfold] at hc
    have hmem : c ∈ ctx.foldl (addRec 0.2)
        (content.foldl (addRec 0.4) (collab.foldl (addRec 0.4) [])) :=
      (sortDescBy_perm (fun c : Combined => c.score) _).mem_iff.mp
        ((List.take_sublist 10 _).subset hc)
    constructor
    · rw [score_eq_combScore_of_mem hnd3 hmem,
        combScore_foldl 0.2 ctx _ _ hnd2,
        combScore_foldl 0.4 content _ _ hnd1,
        combScore_foldl 0.4 collab _ _ hnd0]
      have h0 : combScore ([] : List Combined) c.trackId = 0 := rfl
      rw [h0]
      ring
    · rw [reasons_eq_combReasons_of_mem hnd3 hmem,
        combReasons_foldl 0.2 ctx _ _ hnd2,
        combReasons_foldl 0.4 content _ _ hnd1,
        combReasons_foldl 0.4 collab _ _ hnd0]
      have h0 : combReasons ([] : List Combined) c.trackId = [] := rfl
      rw [h0, List.nil_append]
  · rw [hfold]
    exact (sortDescBy_sorted (fun c : Combined => c.score) _).sublist
      (List.take_sublist 10 _)
  · rw [hfold]
    exact List.length_take_le ..

/-- C5 (counterexample): a strategy list proposing the same track twice —
as the collaborative strategy does when two similar peers rate the same
track — makes the combined entry's reasons list contain a duplicate, so
the accumulated reasons do not form a set. -/
theorem C5_counterexample :
    (combineSessionStrategies
        [{ trackId := "x", score := 5, reason := "collaborative" },
         { trackId := "x", score := 4, reason := "collaborative" }] [] []).map
      (fun c => c.reasons) = [["collaborative", "collaborative"]] ∧
    ¬(["collaborative", "collaborative"] : List String).Nodup := by
  exact ⟨rfl, by decide⟩

/-- C5 witness: one collaborative and one contextual proposal for track
`x` merge into a single entry carrying the weighted score sum and both
reasons. -/
theorem C5_combineRecommendations_witness :
    ({ trackId := "x", score := 5 * 0.4 + 1 * 0.2,
       reasons := ["collaborative", "contextual"] } : Combined).score =
      strategySum [{ trackId := "x", score := 5, reason := "collaborative" }] "x" * 0.4 +
        strategySum ([] : List RecEntry) "x" * 0.4 +
        strategySum [{ trackId := "x", score := 1, reason := "contextual" }] "x" * 0.2 ∧
    ({ trackId := "x", score := 5 * 0.4 + 1 * 0.2,
       reasons := ["collaborative", "contextual"] } : Combined).reasons =
      strategyReasons [{ trackId := "x", score := 5, reason := "collaborative" }] "x" ++
        strategyReasons ([] : List RecEntry) "x" ++
        strategyReasons [{ trackId := "x", score := 1, reason := "contextual" }] "x" :=
  (C5_combineRecommendations
      [{ trackId := "x", score := 5, reason := "collaborative" }] []
      [{ trackId := "x", score := 1, reason := "contextual" }]).1
    { trackId := "x", score := 5 * 0.4 + 1 * 0.2,
      reasons := ["collaborative", "contextual"] }
    (List.mem_singleton_self _)

/-! ## Claim C3: adaptive recommendations after a positive reaction -/

/-- Features shared by two catalog tracks in the C3 counterexample. -/
def dupFeat : Features :=
  { genre := "g", era := 1960, energy := 0.5, valence := 0.5, tempo := 100 }

/-- An engine whose catalog holds two tracks with identical features, the
other track `a` iterated before the reacted track `t`. -/
def dupCatalogEngine : EngineState :=
  { userPreferences := []
    trackFeatures := [("a", dupFeat), ("t", dupFeat)]
    sessionContext := []
    collaborativeModel := [] }

/-- A strongly-like reaction on track `t` with no explicit intensity. -/
def strongLikeT : ReactionRec :=
  { trackId := "t"
    reaction := "strongly like"
    intensity := none
    profileId := "p"
    timestamp := 0 }

/-- C3 (counterexample): with a catalog track `a` of identical features
ordered before the reacted track `t`, the stable sort ranks `a` first and
`slice(1, 6)` drops `a` — the just-reacted track `t` itself is returned,
so the reacted track is not always excluded from the result. -/
theorem C3_counterexample :
    getAdaptiveRecommendations dupCatalogEngine "s" none strongLikeT [] =
      AdaptiveResult.plain [{ trackId := "t", score := 1, reason := "similar" }] ∧
    strongLikeT.trackId = "t" := by
  refine ⟨?_, rfl⟩
  have hs : calculateContentSimilarity dupFeat dupFeat = 1 := by
    unfold calculateContentSimilarity dupFeat
    norm_num
  have h1 : getAdaptiveRecommendations dupCatalogEngine "s" none strongLikeT [] =
      AdaptiveResult.plain (getSimilarTracks dupCatalogEngine dupFeat 5) := rfl
  have h2 : (dupCatalogEngine.trackFeatures.map (fun p =>
      ({ trackId := p.1, score := calculateContentSimilarity dupFeat p.2,
         reason := "similar" } : RecEntry))) =
      [{ trackId := "a", score := 1, reason := "similar" },
       { trackId := "t", score := 1, reason := "similar" }] := by
    simp [dupCatalogEngine, hs]
  have h3 : getSimilarTracks dupCatalogEngine dupFeat 5 =
      [{ trackId := "t", score := 1, reason := "similar" }] := by
    have hdef : getSimilarTracks dupCatalogEngine dupFeat 5 =
        ((sortDescBy (fun r : RecEntry => r.score)
          (dupCatalogEngine.trackFeatures.map (fun p =>
            ({ trackId := p.1, score := calculateContentSimilarity dupFeat p.2,
               reason := "similar" } : RecEntry)))).drop 1).take 5 := rfl
    rw [hdef, h2]
    simp [sortDescBy, insertDescBy]
  rw [h1, h3]

theorem mem_getSimilarTracks_imp {st : EngineState} {tf : Features} {count : ℕ}
    {e : RecEntry} (he : e ∈ getSimilarTracks st tf count) :
    e ∈ st.trackFeatures.map (fun p =>
      ({ trackId := p.1, score := calculateContentSimilarity tf p.2,
         reason := "similar" } : RecEntry)) := by
  have hdef : getSimilarTracks st tf count =
      ((sortDescBy (fun r : RecEntry => r.score)
        (st.trackFeatures.map (fun p =>
          ({ trackId := p.1, score := calculateContentSimilarity tf p.2,
             reason := "similar" } : RecEntry)))).drop 1).take count := rfl
  rw [hdef] at he
  exact (sortDescBy_perm (fun r : RecEntry => r.score) _).mem_iff.mp
    ((List.drop_sublist 1 _).subset ((List.take_sublist count _).subset he))

/-- C3 (amended): for a positive reaction (like / strongly like, or
intensity ≥ 4 — in particular a strongly-like with no explicit intensity)
on a track whose features are in the catalog, adaptive recommendation
returns the entries ranked 2..6 of the catalog sorted by descending
content similarity to the reacted track (dropping the top-ranked entry
positionally); every returned entry carries reason `similar`, never
`contrasting`; and whenever the reacted track's self-similarity is the
strict maximum over the rest of the catalog (keys distinct), the reacted
track itself is excluded from the result. -/
theorem C3_adaptive_positive (st : EngineState) (sessionId : String)
    (profileId : Option String) (rd : ReactionRec) (diverse : List RecEntry)
    (tf : Features)
    (hfeat : mapGet st.trackFeatures rd.trackId = some tf)
    (hpos : isPositiveReaction rd = true) :
    getAdaptiveRecommendations st sessionId profileId rd diverse =
      AdaptiveResult.plain
        (((sortDescBy (fun r : RecEntry => r.score)
          (st.trackFeatures.map (fun p =>
            ({ trackId := p.1, score := calculateContentSimilarity tf p.2,
               reason := "similar" } : RecEntry)))).drop 1).take 5) ∧
    (∀ e ∈ getSimilarTracks st tf 5, e.reason = "similar") ∧
    ((st.trackFeatures.map Prod.fst).Nodup →
      (∀ p ∈ st.trackFeatures, p.1 ≠ rd.trackId →
        calculateContentSimilarity tf p.2 < calculateContentSimilarity tf tf) →
      ∀ e ∈ getSimilarTracks st tf 5, e.trackId ≠ rd.trackId) := by
  refine ⟨?_, ?_, ?_⟩
  · unfold getAdaptiveRecommendations
    rw [hfeat]
    dsimp only
    rw [if_pos hpos]
    rfl
  · intro e he
    obtain ⟨p, _, hpe⟩ := List.mem_map.mp (mem_getSimilarTracks_imp he)
    rw [← hpe]
  · intro hnodup hmax e he het
    have hpair : (rd.trackId, tf) ∈ st.trackFeatures := by
      unfold mapGet at hfeat
      cases hf : st.trackFeatures.find? (fun p => p.1 == rd.trackId) with
      | none => rw [hf] at hfeat; simp at hfeat
      | some q =>
        rw [hf] at hfeat
        simp only [Option.map] at hfeat
        have hq2 : q.2 = tf := Option.some.inj hfeat
        have hq1 : q.1 = rd.trackId := by
          have := List.find?_some
            (p := fun p : String × Features => p.1 == rd.trackId) hf
          simpa using this
        have hqmem := List.mem_of_find?_eq_some hf
        have hq : q = (rd.trackId, tf) := Prod.ext hq1 hq2
        rw [← hq]
        exact hqmem
    set entryFn : String × Features → RecEntry := fun p =>
      { trackId := p.1, score := calculateContentSimilarity tf p.2, reason := "similar" }
      with hentry
    set L := st.trackFeatures.map entryFn with hL
    set e0 : RecEntry :=
      { trackId := rd.trackId, score := calculateContentSimilarity tf tf,
        reason := "similar" } with he0def
    have he0 : e0 ∈ L := List.mem_map.mpr ⟨(rd.trackId, tf), hpair, rfl⟩
    have hinj := List.inj_on_of_nodup_map (f := Prod.fst) hnodup
    have hkey : ∀ x ∈ L, x.trackId = rd.trackId → x = e0 := by
      intro x hx hxt
      obtain ⟨p, hp, hpx⟩ := List.mem_map.mp hx
      have hx1 : x.trackId = p.1 := by rw [← hpx]
      have hp1 : p.1 = rd.trackId := by rw [← hx1, hxt]
      have hpeq : p = (rd.trackId, tf) := hinj hp hpair (by rw [hp1])
      rw [← hpx, hpeq]
    have hlt : ∀ x ∈ L, x ≠ e0 → x.score < e0.score := by
      intro x hx hne
      obtain ⟨p, hp, hpx⟩ := List.mem_map.mp hx
      have hp1 : p.1 ≠ rd.trackId := by
        intro hc
        apply hne
        apply hkey x hx
        rw [← hpx]
        exact hc
      have hmx := hmax p hp hp1
      have hxs : x.score = calculateContentSimilarity tf p.2 := by rw [← hpx]
      rw [hxs]
      exact hmx
    have hLnodup : L.Nodup := by
      refine List.Nodup.of_map (f := fun r : RecEntry => r.trackId) ?_
      have hmm : L.map (fun r : RecEntry => r.trackId) =
          st.trackFeatures.map Prod.fst := by
        rw [hL, List.map_map]
        rfl
      rw [hmm]
      exact hnodup
    set sorted := sortDescBy (fun r : RecEntry => r.score) L with hsorted
    have hperm : sorted.Perm L := sortDescBy_perm _ _
    have hsortnodup : sorted.Nodup := hperm.nodup_iff.mpr hLnodup
    have he0s : e0 ∈ sorted := hperm.mem_iff.mpr he0
    cases hs : sorted with
    | nil => rw [hs] at he0s; simp at he0s
    | cons hd rest =>
      have hpw := sortDescBy_sorted (fun r : RecEntry => r.score) L
      rw [← hsorted, hs, List.pairwise_cons] at hpw
      have hhd : hd = e0 := by
        by_contra hne
        have he0rest : e0 ∈ rest := by
          rw [hs] at he0s
          rcases List.mem_cons.mp he0s with h | h
          · exact absurd h.symm hne
          · exact h
        have hle : e0.score ≤ hd.score := hpw.1 e0 he0rest
        have hhdL : hd ∈ L := hperm.mem_iff.mp (by rw [hs]; simp)
        have hlt2 : hd.score < e0.score := hlt hd hhdL hne
        exact absurd (lt_of_le_of_lt hle hlt2) (lt_irrefl _)
      have he0notrest : e0 ∉ rest := by
        rw [hs] at hsortnodup
        rw [← hhd]
        exact (List.nodup_cons.mp hsortnodup).1
      have heL : e ∈ L := mem_getSimilarTracks_imp he
      have hee0 : e = e0 := hkey e heL het
      have hrest : getSimilarTracks st tf 5 = rest.take 5 := by
        have hdef : getSimilarTracks st tf 5 = (sorted.drop 1).take 5 := rfl
        rw [hdef, hs]
        rfl
      have heRest : e ∈ rest := (List.take_sublist 5 _).subset (by rw [← hrest]; exact he)
      rw [hee0] at heRest
      exact he0notrest heRest

/-- A catalog track strictly less similar to `dupFeat` than itself
(different genre). -/
def featB : Features :=
  { genre := "h", era := 1960, energy := 0.5, valence := 0.5, tempo := 100 }

/-- An engine catalog whose second track `b` is strictly less similar to
the reacted track `t0` than `t0` itself. -/
def strictCatalogEngine : EngineState :=
  { userPreferences := []
    trackFeatures := [("t0", dupFeat), ("b", featB)]
    sessionContext := []
    collaborativeModel := [] }

/-- A strongly-like reaction on track `t0`. -/
def strongLikeT0 : ReactionRec :=
  { trackId := "t0"
    reaction := "strongly like"
    intensity := none
    profileId := "p"
    timestamp := 0 }

/-- C3 (amended) witness: on the strict catalog, the positive reaction on
`t0` yields the similarity-ranked tail with the reacted track excluded. -/
theorem C3_adaptive_positive_witness :
    getAdaptiveRecommendations strictCatalogEngine "s" none strongLikeT0 [] =
      AdaptiveResult.plain
        (((sortDescBy (fun r : RecEntry => r.score)
          (strictCatalogEngine.trackFeatures.map (fun p =>
            ({ trackId := p.1, score := calculateContentSimilarity dupFeat p.2,
               reason := "similar" } : RecEntry)))).drop 1).take 5) ∧
    (∀ e ∈ getSimilarTracks strictCatalogEngine dupFeat 5,
      e.trackId ≠ strongLikeT0.trackId) := by
  have h := C3_adaptive_positive strictCatalogEngine "s" none strongLikeT0 [] dupFeat
    rfl rfl
  refine ⟨h.1, ?_⟩
  have hmax : ∀ p ∈ strictCatalogEngine.trackFeatures, p.1 ≠ strongLikeT0.trackId →
      calculateContentSimilarity dupFeat p.2 < calculateContentSimilarity dupFeat dupFeat := by
    intro p hp hne
    have hp2 : p = ("t0", dupFeat) ∨ p = ("b", featB) := by
      simpa [strictCatalogEngine] using hp
    rcases hp2 with hcase | hcase
    · exact absurd (by rw [hcase]; rfl) hne
    · rw [hcase]
      unfold calculateContentSimilarity dupFeat featB
      rw [if_neg (by decide : ¬("g" : String) = "h")]
      norm_num
  exact h.2.2 (by decide) hmax

/-! ## Claim C4: the engagement score -/

/-- The spec's worked example: intensity 5 at t=0 and intensity 1 at
t=200000. -/
def exampleReactionA : ReactionRec :=
  { trackId := "t", reaction := "like", intensity := some 5, profileId := "p",
    timestamp := 0 }

/-- Second reaction of the worked example. -/
def exampleReactionB : ReactionRec :=
  { trackId := "t", reaction := "dislike", intensity := some 1, profileId := "p",
    timestamp := 200000 }

/-- C4: for a nonempty reaction list whose present intensities are nonzero
(the data model's 1..5 range), engagement equals the sum of intensity
(default 3 when absent) weighted by `exp(-(now − t)/300000)`, divided by
the number of reactions; an empty list gives 0; and the worked example at
now = 200000 evaluates to ≈ 1.78 (within 0.01). -/
theorem C4_engagement (reactions : List ReactionRec) (now : ℚ)
    (hnz : ∀ r ∈ reactions, ∀ v, r.intensity = some v → v ≠ 0)
    (hne : reactions ≠ []) :
    calculateEngagement reactions now =
      (reactions.map (fun r =>
        (match r.intensity with
         | some v => (v : ℝ)
         | none => 3) *
          Real.exp (-(((now : ℝ) - (r.timestamp : ℝ)) / 300000)))).sum /
        (reactions.length : ℝ) ∧
    calculateEngagement [] now = 0 ∧
    |calculateEngagement [exampleReactionA, exampleReactionB] 200000 - 1.78| < 0.01 := by
  refine ⟨?_, rfl, ?_⟩
  · unfold calculateEngagement
    rw [if_neg (by simpa [List.length_eq_zero] using hne)]
    dsimp only
    congr 1
    apply congrArg List.sum
    apply List.map_congr_left
    intro r hr
    dsimp only
    cases hi : r.intensity with
    | none =>
      simp only [hi]
      norm_num
    | some v =>
      simp only [hi]
      rw [if_neg (hnz r hr v hi)]
      norm_num
  · have hE : calculateEngagement [exampleReactionA, exampleReactionB] 200000 =
        (5 * Real.exp (-(2/3 : ℝ)) + 1) / 2 := by
      unfold calculateEngagement exampleReactionA exampleReactionB
      norm_num
    rw [hE]
    have hb : |Real.exp (2/3) - 473/243| ≤ 8/6075 := by
      have hb0 := Real.exp_bound (x := (2:ℝ)/3)
        (by rw [abs_of_nonneg] <;> norm_num) (n := 5) (by norm_num)
      rw [show |(2:ℝ)/3| = 2/3 from abs_of_nonneg (by norm_num)] at hb0
      simp [Finset.sum_range_succ, Nat.factorial] at hb0
      norm_num at hb0
      exact hb0
    obtain ⟨h1, h2⟩ := abs_le.mp hb
    have hspos : (0:ℝ) < Real.exp (2/3) := Real.exp_pos _
    have hlow : (11817/6075 : ℝ) ≤ Real.exp (2/3) := by linarith
    have hupp : Real.exp (2/3) ≤ (11833/6075 : ℝ) := by linarith
    have hinv1 : (Real.exp (2/3))⁻¹ ≤ (11817/6075 : ℝ)⁻¹ :=
      inv_anti₀ (by norm_num) hlow
    have hinv2 : ((11833/6075 : ℝ))⁻¹ ≤ (Real.exp (2/3))⁻¹ :=
      inv_anti₀ hspos hupp
    rw [Real.exp_neg, abs_lt]
    constructor <;> nlinarith

/-- A single reaction of intensity 4 at t = 0 for the C4 witness. -/
def singleReaction : ReactionRec :=
  { trackId := "t"
    reaction := "like"
    intensity := some 4
    profileId := "p"
    timestamp := 0 }

/-- C4 witness: the formula instantiated on a single reaction of
intensity 4 at t = 0, evaluated at now = 0. -/
theorem C4_engagement_witness :
    calculateEngagement [singleReaction] 0 =
      (([singleReaction] : List ReactionRec).map (fun r =>
        (match r.intensity with
         | some v => (v : ℝ)
         | none => 3) *
          Real.exp (-((((0 : ℚ) : ℝ) - (r.timestamp : ℝ)) / 300000)))).sum /
        (([singleReaction] : List ReactionRec).length : ℝ) :=
  (C4_engagement [singleReaction] 0
    (by
      intro r hr v hv
      rw [List.mem_singleton] at hr
      subst hr
      have hv4 : (4 : ℚ) = v := Option.some.inj hv
      rw [← hv4]
      norm_num)
    (by simp)).1

/-! ## Claim C8: track-to-track similarity of matching tracks -/

/-- A track document used in the C8 counterexample. -/
def trackP : TrackDoc :=
  { genre := some "g"
    artist := some "a1"
    era := some 1960
    energy := 0.5
    valence := 0.5
    tempo := 100
    acousticness := 0.1
    danceability := 0.1 }

/-- A track equal to `trackP` in genre, era, energy, valence and tempo but
with different artist, acousticness and danceability. -/
def trackQ : TrackDoc :=
  { trackP with artist := some "a2", acousticness := 0.7, danceability := 0.9 }

/-- C8 (counterexample): two tracks with equal genre, era, energy, valence
and tempo but acousticness apart by 0.6 and danceability apart by 0.8 have
distance 1, similarity 1/2 and boost 1.3 (genre + era), so the
track-to-track similarity is 0.65, not 1. -/
theorem C8_counterexample :
    calculateSimilarity trackP trackQ = 13/20 ∧ ((13 : ℝ)/20) ≠ 1 := by
  constructor
  · simp only [calculateSimilarity, trackQ, trackP, eraWithin10]
    norm_num
    rw [if_neg (by decide : ¬("a1" : String) = "a2")]
    norm_num [min_def]
  · norm_num

/-- C8 (amended): two tracks whose genre and era match and whose five
distance features (energy, valence, tempo, acousticness, danceability)
are all equal have track-to-track similarity exactly 1: the distance is 0,
the raw similarity 1, and the genre/era boost pushes the product to at
least 1 before the cap clamps it to 1. -/
theorem C8_trackSimilarity_one (t1 t2 : TrackDoc)
    (hg : t1.genre = t2.genre) (he : t1.era = t2.era)
    (hE : t1.energy = t2.energy) (hv : t1.valence = t2.valence)
    (ht : t1.tempo = t2.tempo) (ha : t1.acousticness = t2.acousticness)
    (hd : t1.danceability = t2.danceability) :
    calculateSimilarity t1 t2 = 1 := by
  unfold calculateSimilarity
  dsimp only
  rw [hg, he, hE, hv, ht, ha, hd]
  simp only [sub_self, zero_div, Rat.cast_zero, ne_eq, OfNat.ofNat_ne_zero,
    not_false_eq_true, zero_pow, add_zero, zero_add, Real.sqrt_zero, div_one, if_pos rfl]
  have hera : (if eraWithin10 t2.era t2.era = true then (0.1 : ℝ) else 0) =
      (if t2.era.isSome then (0.1 : ℝ) else 0) := by
    cases t2.era with
    | none => simp [eraWithin10]
    | some e => simp [eraWithin10]
  rw [hera]
  by_cases hart : t1.artist = t2.artist <;>
    cases hop : t2.era.isSome <;>
      simp [hart, min_def] <;> norm_num

/-- C8 (amended) witness: a concrete pair equal on all seven fields but
the artist has similarity exactly 1. -/
theorem C8_trackSimilarity_one_witness :
    calculateSimilarity trackP { trackP with artist := some "zz" } = 1 :=
  C8_trackSimilarity_one trackP { trackP with artist := some "zz" }
    rfl rfl rfl rfl rfl rfl rfl

end M4D
